import Mathlib

/-!
# AOS WiFi client: connection controller

A shallow embedding of `src/src/aos_wifi_client.c` (with the declarations of
`src/include/aos_wifi_client.h`).  Every handler of the C file is a function on
a `World`: the controller context `ctx`, the memory of the futures' payloads,
and the trace of what the handler did to the outside (driver calls, future
resolutions, observer notifications) and to the two pending slots, in program
order.  Whatever the radio driver answers is an input of the step (`Driver`).
-/

namespace AosWifiClient

/-! ## Data model -/

/-- An `aos_future_t *`: a future is identified by its address. -/
abbrev Fut := Nat

/-- The esp-idf `esp_err_t`; `ESP_OK` is zero, every other value is a failure. -/
abbrev esp_err_t := Nat

/-- The esp-idf success code. -/
def ESP_OK : esp_err_t := 0

/-- The C `UINT_MAX` of the 32 bit target: attempt counters are `unsigned int`. -/
def UINT_MAX : Nat := 2 ^ 32 - 1

/-- The C `INT8_MAX`. -/
def INT8_MAX : Int := 127

/-- Number of bytes of `wifi_sta_config_t.ssid` (esp-idf: `uint8_t ssid[32]`). -/
def SSID_SIZE : Nat := 32

/-- Number of bytes of `wifi_sta_config_t.password` (esp-idf: `uint8_t password[64]`),
which follows `ssid` directly in the structure. -/
def PASSWORD_SIZE : Nat := 64

/-- The enum `_aos_wifi_client_state_t`. -/
inductive _aos_wifi_client_state_t
  | DISCONNECTED
  | CONNECTING
  | CONNECTED
  | RECONNECTING
  deriving DecidableEq, Repr

/-- The enum `aos_wifi_client_event_t` of the header: what the observer is told. -/
inductive aos_wifi_client_event_t
  | RECONNECTING
  | RECONNECTED
  | DISCONNECTED
  deriving DecidableEq, Repr

/-- The struct `aos_wifi_client_config_t`; `event_handler` is the address of the
observer callback. -/
structure aos_wifi_client_config_t where
  connection_attempts : Nat
  reconnection_attempts : Nat
  event_handler : Nat
  deriving DecidableEq, Repr

/-- The struct `_aos_wifi_client_ctx_t`.  Pointers are `Option`s, `none` being `NULL`. -/
structure _aos_wifi_client_ctx_t where
  config : aos_wifi_client_config_t
  state : _aos_wifi_client_state_t
  netif : Option Nat
  ip_handler_instance : Option Nat
  wifi_handler_instance : Option Nat
  connect_future : Option Fut
  scan_future : Option Fut
  ip_info : Option Nat
  connection_attempt : Nat
  reconnection_attempt : Nat
  deriving DecidableEq, Repr

/-- The struct `aos_wifi_client_scan_result_t` of the header.  `strength` is a C
`float`, kept here as the exact rational the expression denotes; the field `open`
is called `open_`. -/
structure aos_wifi_client_scan_result_t where
  ssid : List Nat
  strength : ℚ
  open_ : Bool
  deriving DecidableEq

/-- The fields of the esp-idf `wifi_ap_record_t` the client reads: `ssid` is
`uint8_t[33]`, `rssi` is `int8_t`, `authmode` is an enum whose value 0 is
`WIFI_AUTH_OPEN`. -/
structure wifi_ap_record_t where
  ssid : List Nat
  rssi : Int
  authmode : Nat
  deriving DecidableEq

/-- The esp-idf `WIFI_AUTH_OPEN`. -/
def WIFI_AUTH_OPEN : Nat := 0

/-- The payload of a future (`aos_args_get`).  The header declares one payload type
per operation with `AOS_DECLARE`; this record has the fields of all of them, and a
handler touches only the fields its own declaration has:
start `out_err`; connect `in_ssid`, `in_password`, `out_err`; scan `in_results`,
`in_results_size`, `out_results_count`, `out_err`; the connected notification
`ip_info`; stop, disconnect and the other notifications none.
A C string is the list of bytes at its address, the terminating NUL left implicit. -/
structure Args where
  in_ssid : List Nat
  in_password : List Nat
  in_results : Nat → aos_wifi_client_scan_result_t
  in_results_size : Nat
  out_results_count : Nat
  out_err : Nat
  ip_info : Option Nat

/-- The two event bases the client subscribes to. -/
inductive esp_event_base_t
  | IP_EVENT
  | WIFI_EVENT
  deriving DecidableEq, Repr

/-- A call into the driver (or the allocator), with the arguments that vary and,
where the client looks at it, the value the call returned. -/
inductive Call
  | esp_netif_create_default_wifi_sta (ret : Option Nat)
  | esp_wifi_init (ret : esp_err_t)
  | esp_wifi_set_mode (ret : esp_err_t)
  | esp_wifi_set_ps (ret : esp_err_t)
  | esp_wifi_start (ret : esp_err_t)
  | esp_event_handler_instance_register (base : esp_event_base_t) (ret : esp_err_t)
  | esp_event_handler_instance_unregister (base : esp_event_base_t) (inst : Option Nat)
  | esp_wifi_stop
  | esp_wifi_deinit
  | esp_netif_destroy_default_wifi (netif : Option Nat)
  | esp_wifi_get_config (ret : esp_err_t)
  | esp_wifi_set_config (ssid password : List Nat) (ret : esp_err_t)
  | esp_wifi_connect (ret : esp_err_t)
  | esp_wifi_disconnect
  | esp_wifi_scan_start (ret : esp_err_t)
  | esp_wifi_scan_stop
  | esp_wifi_scan_get_ap_records (number : Nat) (ret : esp_err_t)
  | calloc (nmemb : Nat) (ok : Bool)
  | free
  deriving DecidableEq, Repr

/-- One entry of the trace of a handler. -/
inductive Effect
  /-- A driver call. -/
  | call (c : Call)
  /-- The call `aos_resolve(future)`, with the value the payload's `out_err` has at
  that moment: what a caller woken by the resolution reads. -/
  | resolve (future : Fut) (out_err : Nat)
  /-- The call `ctx->config.event_handler(event, NULL)`. -/
  | event_handler (handler : Nat) (event : aos_wifi_client_event_t)
  /-- An assignment to `ctx->connect_future`. -/
  | connect_future (v : Option Fut)
  /-- An assignment to `ctx->scan_future`. -/
  | scan_future (v : Option Fut)
  deriving DecidableEq, Repr

/-- What the driver answers during one handler run.  No handler makes the same
checked call twice, so one answer per call is enough; calls whose result the client
ignores need none.  `esp_wifi_get_config` answers with the error code and the
configuration it wrote (a byte image: `ssid` at offsets 0..31, `password` at
32..95); the two registrations with the error code and the instance handle;
`esp_wifi_scan_get_ap_records` gets the capacity and answers with the error code and
the records it stored; `calloc` gets the element count and says whether the pointer
it returned is non-`NULL`. -/
structure Driver where
  esp_netif_create_default_wifi_sta : Option Nat
  esp_wifi_init : esp_err_t
  esp_wifi_set_mode : esp_err_t
  esp_wifi_set_ps : esp_err_t
  esp_wifi_start : esp_err_t
  register_ip : esp_err_t × Option Nat
  register_wifi : esp_err_t × Option Nat
  esp_wifi_get_config : esp_err_t × (Nat → Nat)
  esp_wifi_set_config : esp_err_t
  esp_wifi_connect : esp_err_t
  esp_wifi_scan_start : esp_err_t
  esp_wifi_scan_get_ap_records : Nat → esp_err_t × List wifi_ap_record_t
  calloc : Nat → Bool

/-- The controller context, the futures' payloads, and the trace so far. -/
structure World where
  ctx : _aos_wifi_client_ctx_t
  heap : Fut → Args
  trace : List Effect

/-! ## The C library functions the handlers use -/

/-- The C `strlen` of the string whose bytes are `s` (NUL implicit at the end). -/
def strlen (s : List Nat) : Nat :=
  (s.takeWhile (fun c => c != 0)).length

/-- The memory at the address of the C string `s`, by offset: its bytes, then NUL. -/
def cstr (s : List Nat) : Nat → Nat :=
  fun i => s.getD i 0

/-- The memory `off` bytes further. -/
def shift (a : Nat → Nat) (off : Nat) : Nat → Nat :=
  fun i => a (i + off)

/-- The C `strncmp(a, b, n)`: the first difference among the first `n` bytes, not
looking past a NUL. -/
def strncmp (a b : Nat → Nat) : Nat → Int
  | 0 => 0
  | n + 1 =>
    if a 0 ≠ b 0 then (a 0 : Int) - (b 0 : Int)
    else if a 0 = 0 then 0
    else strncmp (shift a 1) (shift b 1) n

/-- Store the bytes `bs` at offset `off`. -/
def poke (m : Nat → Nat) (off : Nat) (bs : List Nat) : Nat → Nat :=
  fun i => if off ≤ i ∧ i < off + bs.length then bs.getD (i - off) 0 else m i

/-- The C `strcpy(m + off, s)`: the bytes of `s` up to its NUL, and the NUL. -/
def strcpy (m : Nat → Nat) (off : Nat) (s : List Nat) : Nat → Nat :=
  poke m off (s.takeWhile (fun c => c != 0) ++ [0])

/-- The `n` bytes at offset `off`. -/
def peek (m : Nat → Nat) (off n : Nat) : List Nat :=
  (List.range n).map (shift m off)

/-- The C `strncpy(dst, src, n)` into a destination of `n` bytes: the bytes of `src`
up to its NUL or to `n`, padded with NUL. -/
def strncpy (src : List Nat) (n : Nat) : List Nat :=
  ((src.takeWhile (fun c => c != 0)).take n) ++
    List.replicate (n - ((src.takeWhile (fun c => c != 0)).take n).length) 0

/-! ## Primitive steps -/

/-- Append one entry to the trace. -/
def emit (e : Effect) (w : World) : World :=
  { w with trace := w.trace ++ [e] }

/-- The call `aos_resolve(future)` of the future primitive. -/
def aos_resolve (future : Fut) (w : World) : World :=
  emit (.resolve future (w.heap future).out_err) w

/-- The assignment `args->out_err = v` on the payload of `future`. -/
def set_out_err (future : Fut) (v : Nat) (w : World) : World :=
  { w with heap := Function.update w.heap future { w.heap future with out_err := v } }

/-- The assignment `args->out_results_count = v` on the payload of `future`. -/
def set_out_results_count (future : Fut) (v : Nat) (w : World) : World :=
  { w with heap := Function.update w.heap future { w.heap future with out_results_count := v } }

/-- The caller's result buffer `args->in_results` of `future` after the writes that
leave it as `buf`. -/
def set_in_results (future : Fut) (buf : Nat → aos_wifi_client_scan_result_t)
    (w : World) : World :=
  { w with heap := Function.update w.heap future { w.heap future with in_results := buf } }

/-- The assignment `ctx->state = s`. -/
def set_state (s : _aos_wifi_client_state_t) (w : World) : World :=
  { w with ctx := { w.ctx with state := s } }

/-- The assignment `ctx->connect_future = v`. -/
def set_connect_future (v : Option Fut) (w : World) : World :=
  emit (.connect_future v) { w with ctx := { w.ctx with connect_future := v } }

/-- The assignment `ctx->scan_future = v`. -/
def set_scan_future (v : Option Fut) (w : World) : World :=
  emit (.scan_future v) { w with ctx := { w.ctx with scan_future := v } }

/-- The call `ctx->config.event_handler(event, NULL)`. -/
def notify (event : aos_wifi_client_event_t) (w : World) : World :=
  emit (.event_handler w.ctx.config.event_handler event) w

/-! ## Initialisation -/

/-- The context `calloc` returns (all fields zero) once `ctx->config = *config` ran. -/
def ctx_calloc (config : aos_wifi_client_config_t) : _aos_wifi_client_ctx_t :=
  { config := config
    state := .DISCONNECTED
    netif := none
    ip_handler_instance := none
    wifi_handler_instance := none
    connect_future := none
    scan_future := none
    ip_info := none
    connection_attempt := 0
    reconnection_attempt := 0 }

/-- What the allocator and the task primitive answer during `aos_wifi_client_init`:
whether `calloc` and `aos_task_alloc` returned non-`NULL`, and the return values of
the six `aos_task_handler_set` calls (zero is success). -/
structure InitEnv where
  calloc_ok : Bool
  task_alloc_ok : Bool
  handler_set : List Nat

/-- The function `aos_wifi_client_init`.  The argument `_task` is the static task
pointer (`none` is `NULL`), represented by the context the task carries; the result
is its value when the function returns.  The call `esp_event_loop_create_default()`
does not touch the context and is left out. -/
def aos_wifi_client_init (env : InitEnv) (config : aos_wifi_client_config_t)
    (_task : Option _aos_wifi_client_ctx_t) : Option _aos_wifi_client_ctx_t :=
  match _task with
  | some ctx => some ctx
  | none =>
    if !env.calloc_ok || !env.task_alloc_ok || env.handler_set.any (fun r => r != 0) then
      none
    else
      some (ctx_calloc config)

/-! ## The two internal helpers -/

/-- The function `_aos_wifi_client_disconnect`. -/
def _aos_wifi_client_disconnect (w : World) : World :=
  let w := emit (.call .esp_wifi_disconnect) w
  match w.ctx.connect_future with
  | some cf =>
    let w := set_out_err cf 1 w
    let w := aos_resolve cf w
    set_connect_future none w
  | none => w

/-- The function `_aos_wifi_client_stopcurrentscan`. -/
def _aos_wifi_client_stopcurrentscan (d : Driver) (w : World) : World :=
  match w.ctx.scan_future with
  | some sf =>
    let w := emit (.call .esp_wifi_scan_stop) w
    let w := emit (.call (.esp_wifi_scan_get_ap_records 0 (d.esp_wifi_scan_get_ap_records 0).1)) w
    let w := set_out_err sf 1 w
    let w := aos_resolve sf w
    set_scan_future none w
  | none => w

/-! ## Start and stop -/

/-- The function `_aos_wifi_client_onstart`; the second component is its return value.
The `||` chain evaluates left to right and stops at the first failure.
`esp_event_handler_instance_register` stores the instance handle through its last
argument when it succeeds and leaves the field alone when it fails. -/
def _aos_wifi_client_onstart (d : Driver) (future : Fut) (w : World) : World × Nat :=
  let netif := d.esp_netif_create_default_wifi_sta
  let w := emit (.call (.esp_netif_create_default_wifi_sta netif)) w
  let w := { w with ctx := { w.ctx with netif := netif } }
  if netif = none then
    (aos_resolve future (set_out_err future 1 w), 1)
  else
    let fail := fun (w : World) => (aos_resolve future (set_out_err future 1 w), 1)
    let w := emit (.call (.esp_wifi_init d.esp_wifi_init)) w
    if d.esp_wifi_init ≠ ESP_OK then fail w else
    let w := emit (.call (.esp_wifi_set_mode d.esp_wifi_set_mode)) w
    if d.esp_wifi_set_mode ≠ ESP_OK then fail w else
    let w := emit (.call (.esp_wifi_set_ps d.esp_wifi_set_ps)) w
    if d.esp_wifi_set_ps ≠ ESP_OK then fail w else
    let w := emit (.call (.esp_wifi_start d.esp_wifi_start)) w
    if d.esp_wifi_start ≠ ESP_OK then fail w else
    let w := emit (.call (.esp_event_handler_instance_register .IP_EVENT d.register_ip.1)) w
    let w := { w with ctx := { w.ctx with ip_handler_instance :=
      if d.register_ip.1 = ESP_OK then d.register_ip.2 else w.ctx.ip_handler_instance } }
    if d.register_ip.1 ≠ ESP_OK then fail w else
    let w := emit (.call (.esp_event_handler_instance_register .WIFI_EVENT d.register_wifi.1)) w
    let w := { w with ctx := { w.ctx with wifi_handler_instance :=
      if d.register_wifi.1 = ESP_OK then d.register_wifi.2 else w.ctx.wifi_handler_instance } }
    if d.register_wifi.1 ≠ ESP_OK then fail w else
    (aos_resolve future w, 0)

/-- The function `_aos_wifi_client_onstop`; the second component is its return value. -/
def _aos_wifi_client_onstop (d : Driver) (future : Fut) (w : World) : World × Nat :=
  let w := _aos_wifi_client_stopcurrentscan d w
  let w := _aos_wifi_client_disconnect w
  let w := emit (.call (.esp_event_handler_instance_unregister .WIFI_EVENT w.ctx.wifi_handler_instance)) w
  let w := { w with ctx := { w.ctx with wifi_handler_instance := none } }
  let w := emit (.call (.esp_event_handler_instance_unregister .IP_EVENT w.ctx.ip_handler_instance)) w
  let w := { w with ctx := { w.ctx with ip_handler_instance := none } }
  let w := emit (.call .esp_wifi_stop) w
  let w := emit (.call .esp_wifi_deinit) w
  let w := emit (.call (.esp_netif_destroy_default_wifi w.ctx.netif)) w
  let w := { w with ctx := { w.ctx with netif := none } }
  (aos_resolve future w, 0)

/-! ## Request handlers -/

/-- The function `_aos_wifi_client_connect_handler`.  All four cases of the `switch`
share one body. -/
def _aos_wifi_client_connect_handler (d : Driver) (future : Fut) (w : World) : World :=
  -- Input checking
  if strlen (w.heap future).in_ssid > SSID_SIZE ∨
      strlen (w.heap future).in_password > PASSWORD_SIZE then
    aos_resolve future (set_out_err future 1 w)
  else
    -- Get current configuration
    let err := d.esp_wifi_get_config.1
    let old_config := d.esp_wifi_get_config.2
    let w := emit (.call (.esp_wifi_get_config err)) w
    if err ≠ ESP_OK then
      let w := _aos_wifi_client_disconnect w
      let w := set_state .DISCONNECTED w
      let w := set_out_err future 1 w
      aos_resolve future w
    -- Do not reconnect if configuration did not change
    else if w.ctx.state = .CONNECTED ∧
        strncmp (shift old_config 0) (cstr (w.heap future).in_ssid) SSID_SIZE = 0 ∧
        strncmp (shift old_config SSID_SIZE) (cstr (w.heap future).in_password)
          PASSWORD_SIZE = 0 then
      aos_resolve future (set_out_err future 0 w)
    else
      -- Disconnect in case we are connected
      let w := _aos_wifi_client_disconnect w
      -- Prepare config
      let config := strcpy (fun _ => 0) 0 (w.heap future).in_ssid
      let config := strcpy config SSID_SIZE (w.heap future).in_password
      let err := d.esp_wifi_set_config
      let w := emit (.call (.esp_wifi_set_config (peek config 0 SSID_SIZE)
        (peek config SSID_SIZE PASSWORD_SIZE) err)) w
      if err ≠ ESP_OK then
        let w := _aos_wifi_client_disconnect w
        let w := set_state .DISCONNECTED w
        let w := set_out_err future 1 w
        aos_resolve future w
      else
        -- Reset state and try to connect
        let w := { w with ctx := { w.ctx with connection_attempt := 0 } }
        let w := { w with ctx := { w.ctx with reconnection_attempt := 0 } }
        let err := d.esp_wifi_connect
        let w := emit (.call (.esp_wifi_connect err)) w
        if err ≠ ESP_OK then
          let w := _aos_wifi_client_disconnect w
          let w := set_state .DISCONNECTED w
          let w := set_out_err future 1 w
          aos_resolve future w
        else
          let w := set_connect_future (some future) w
          set_state .CONNECTING w

/-- The function `_aos_wifi_client_disconnect_handler`.  All four cases of the `switch`
share one body. -/
def _aos_wifi_client_disconnect_handler (future : Fut) (w : World) : World :=
  let w := _aos_wifi_client_disconnect w
  let w := set_state .DISCONNECTED w
  aos_resolve future w

/-- The function `_aos_wifi_client_scan_handler`.  All four cases of the `switch`
share one body. -/
def _aos_wifi_client_scan_handler (d : Driver) (future : Fut) (w : World) : World :=
  -- Resolve unfinished scan if any
  let w := _aos_wifi_client_stopcurrentscan d w
  -- Start scan
  let err := d.esp_wifi_scan_start
  let w := emit (.call (.esp_wifi_scan_start err)) w
  if err ≠ ESP_OK then
    aos_resolve future (set_out_err future 1 w)
  else
    set_scan_future (some future) w

/-! ## Handlers of the driver notifications -/

/-- The function `_aos_wifi_client_onconnected_handler`. -/
def _aos_wifi_client_onconnected_handler (future : Fut) (w : World) : World :=
  match w.ctx.state with
  | .CONNECTING | .RECONNECTING | .CONNECTED =>
    -- Resolve connect future if any
    let w1 := match w.ctx.connect_future with
      | some cf =>
        let w := set_out_err cf 0 w
        let w := aos_resolve cf w
        set_connect_future none w
      | none => w
    -- Reset reconnection counter
    let w2 := { w1 with ctx := { w1.ctx with reconnection_attempt := 0 } }
    -- Store ip information
    let w3 := { w2 with ctx := { w2.ctx with ip_info := (w2.heap future).ip_info } }
    -- If we are reconnecting, raise event
    let w4 := if w3.ctx.state = .RECONNECTING then notify .RECONNECTED w3 else w3
    -- Set state
    let w5 := set_state .CONNECTED w4
    aos_resolve future w5
  | .DISCONNECTED =>
    -- Target state is DISCONNECTED, thus do nothing. It is likely a late notification.
    aos_resolve future w

/-- The C `x++` on an `unsigned int`. -/
def incr (x : Nat) : Nat :=
  (x + 1) % 2 ^ 32

/-- The function `_aos_wifi_client_ondisconnected_handler`. -/
def _aos_wifi_client_ondisconnected_handler (d : Driver) (future : Fut) (w : World) : World :=
  match w.ctx.state with
  | .CONNECTED | .RECONNECTING | .CONNECTING =>
    -- Are we connecting?
    if w.ctx.connect_future ≠ none then
      -- If we tried too many times, just disconnect
      if w.ctx.connection_attempt > w.ctx.config.connection_attempts then
        let w := _aos_wifi_client_disconnect w
        let w := set_state .DISCONNECTED w
        aos_resolve future w
      else
        -- Else, try once more
        let w := { w with ctx := { w.ctx with connection_attempt := incr w.ctx.connection_attempt } }
        let err := d.esp_wifi_connect
        let w := emit (.call (.esp_wifi_connect err)) w
        if err ≠ ESP_OK then
          let w := _aos_wifi_client_disconnect w
          let w := set_state .DISCONNECTED w
          aos_resolve future w
        else
          aos_resolve future w
    -- No, we are recovering
    else if w.ctx.reconnection_attempt > w.ctx.config.reconnection_attempts then
      let w := _aos_wifi_client_disconnect w
      let w := set_state .DISCONNECTED w
      let w := notify .DISCONNECTED w
      aos_resolve future w
    else
      let w := { w with ctx := { w.ctx with reconnection_attempt := incr w.ctx.reconnection_attempt } }
      let err := d.esp_wifi_connect
      let w := emit (.call (.esp_wifi_connect err)) w
      if err ≠ ESP_OK then
        let w := _aos_wifi_client_disconnect w
        let w := set_state .DISCONNECTED w
        aos_resolve future w
      else
        let w := set_state .RECONNECTING w
        let w := notify .RECONNECTING w
        aos_resolve future w
  | .DISCONNECTED =>
    -- Target state is DISCONNECTED, thus do nothing. It is likely a late notification.
    aos_resolve future w

/-- The body of the translation loop of `_aos_wifi_client_onscandone_handler` for one
index: `memset` and `strncpy` of the name into `char ssid[34]` (33 bytes copied, the
last one left zero), the open flag, and the strength `(float)rssi / INT8_MAX + 1`. -/
def translate (r : wifi_ap_record_t) : aos_wifi_client_scan_result_t :=
  { ssid := strncpy r.ssid 33 ++ [0]
    open_ := if r.authmode = WIFI_AUTH_OPEN then true else false
    strength := (r.rssi : ℚ) / (INT8_MAX : ℚ) + 1 }

/-- The translation loop `for (size_t i = 0; i < results_cnt; i++)`, from index `i`
on: `records` are the driver's records from that index on. -/
def translate_loop (buf : Nat → aos_wifi_client_scan_result_t) (i : Nat) :
    List wifi_ap_record_t → Nat → aos_wifi_client_scan_result_t
  | [] => buf
  | r :: rest => translate_loop (Function.update buf i (translate r)) (i + 1) rest

/-- The function `_aos_wifi_client_onscandone_handler`.  All four cases of the `switch`
share one body.  `results_cnt` is a `uint16_t`: the capacity is truncated to 16 bits.
The driver reports the number of records it stored through the same variable: it is
the length of the list the driver answered with. -/
def _aos_wifi_client_onscandone_handler (d : Driver) (future : Fut) (w : World) : World :=
  match w.ctx.scan_future with
  | none =>
    -- We need to call this to free memory in the driver according to esp_wifi_scan_start docs
    let w := emit (.call (.esp_wifi_scan_get_ap_records 0 (d.esp_wifi_scan_get_ap_records 0).1)) w
    aos_resolve future w
  | some sf =>
    -- Allocate temporary structure for results
    let results_cnt := (w.heap sf).in_results_size % 2 ^ 16
    let w := emit (.call (.calloc results_cnt (d.calloc results_cnt))) w
    let w :=
      if d.calloc results_cnt = false then
        set_out_err sf 1 w
      else
        -- Get results
        let err := (d.esp_wifi_scan_get_ap_records results_cnt).1
        let results := (d.esp_wifi_scan_get_ap_records results_cnt).2
        let w := emit (.call (.esp_wifi_scan_get_ap_records results_cnt err)) w
        if err ≠ ESP_OK then
          set_out_err sf 2 w
        else
          let w := set_in_results sf (translate_loop (w.heap sf).in_results 0 results) w
          let w := set_out_results_count sf results.length w
          set_out_err sf 0 w
    let w := emit (.call .free) w
    let w := aos_resolve future w
    let w := aos_resolve sf w
    set_scan_future none w

/-! ## The worker -/

/-- What the task worker takes from its queue: the start and stop of the task, the
five client requests and the three wrapped driver notifications, each with the
future it carries. -/
inductive Event
  | start (future : Fut)
  | stop (future : Fut)
  | connect (future : Fut)
  | disconnect (future : Fut)
  | scan (future : Fut)
  | connected (future : Fut)
  | disconnected (future : Fut)
  | scandone (future : Fut)
  deriving DecidableEq, Repr

/-- The future an event carries. -/
def Event.future : Event → Fut
  | .start f | .stop f | .connect f | .disconnect f | .scan f
  | .connected f | .disconnected f | .scandone f => f

/-- One handler run: the handler registered for the event (`aos_wifi_client_init`),
with the driver's answers during that run. -/
def dispatch (d : Driver) (e : Event) (w : World) : World :=
  match e with
  | .start f => (_aos_wifi_client_onstart d f w).1
  | .stop f => (_aos_wifi_client_onstop d f w).1
  | .connect f => _aos_wifi_client_connect_handler d f w
  | .disconnect f => _aos_wifi_client_disconnect_handler f w
  | .scan f => _aos_wifi_client_scan_handler d f w
  | .connected f => _aos_wifi_client_onconnected_handler f w
  | .disconnected f => _aos_wifi_client_ondisconnected_handler d f w
  | .scandone f => _aos_wifi_client_onscandone_handler d f w

/-- The worker processes the queued events one at a time, in order. -/
def run (w : World) : List (Driver × Event) → World
  | [] => w
  | (d, e) :: rest => run (dispatch d e w) rest

/-- The world right after a successful `aos_wifi_client_init`: the zeroed context with
the configuration, the futures' payloads as the callers allocated them, nothing done
yet. -/
def boot (config : aos_wifi_client_config_t) (heap : Fut → Args) : World :=
  { ctx := ctx_calloc config, heap := heap, trace := [] }

/-! ## Vocabulary of the properties -/

/-- The string a C string denotes: its bytes up to the first NUL. -/
def c_string (s : List Nat) : List Nat :=
  s.takeWhile (fun c => c != 0)

/-- The string a byte field of `n` bytes at offset `off` holds: its bytes up to the
first NUL, or all of them when the field has none. -/
def field_string (m : Nat → Nat) (off n : Nat) : List Nat :=
  (peek m off n).takeWhile (fun c => c != 0)

/-- The resolutions of the future `f` in a trace, in order: the `out_err` each one
carried. -/
def resolutions (f : Fut) : List Effect → List Nat
  | [] => []
  | .resolve g v :: rest => if g = f then v :: resolutions f rest else resolutions f rest
  | .call _ :: rest => resolutions f rest
  | .event_handler _ _ :: rest => resolutions f rest
  | .connect_future _ :: rest => resolutions f rest
  | .scan_future _ :: rest => resolutions f rest

/-- The future `f` sits in one of the two pending slots. -/
def pending (w : World) (f : Fut) : Prop :=
  w.ctx.connect_future = some f ∨ w.ctx.scan_future = some f

/-- What a handler run that took `w` to `w'` appended to the trace. -/
def appended (w w' : World) : List Effect :=
  w'.trace.drop w.trace.length

/-- A trace entry is a driver call the connect handler checks (get-config, set-config
or connect) that returned a failure. -/
def failed_call : Effect → Bool
  | .call (.esp_wifi_get_config r) => r != ESP_OK
  | .call (.esp_wifi_set_config _ _ r) => r != ESP_OK
  | .call (.esp_wifi_connect r) => r != ESP_OK
  | _ => false

/-- A driver that answers every call with success; `esp_wifi_get_config` reports the
station configuration `sta`. -/
def driver_ok (sta : Nat → Nat) : Driver :=
  { esp_netif_create_default_wifi_sta := some 1
    esp_wifi_init := ESP_OK
    esp_wifi_set_mode := ESP_OK
    esp_wifi_set_ps := ESP_OK
    esp_wifi_start := ESP_OK
    register_ip := (ESP_OK, some 2)
    register_wifi := (ESP_OK, some 3)
    esp_wifi_get_config := (ESP_OK, sta)
    esp_wifi_set_config := ESP_OK
    esp_wifi_connect := ESP_OK
    esp_wifi_scan_start := ESP_OK
    esp_wifi_scan_get_ap_records := fun _ => (ESP_OK, [])
    calloc := fun _ => true }

/-- A driver whose `esp_wifi_connect` fails, everything else as `driver_ok`. -/
def driver_connect_fails (sta : Nat → Nat) : Driver :=
  { driver_ok sta with esp_wifi_connect := 1 }

/-- The payload of the tests' connect futures: `AOS_AWAITABLE_ALLOC_T(aos_wifi_client_connect)`
with the ssid "MY_SSID" and the password "MY_PASSWORD" (their bytes), `out_err` 0;
the fields of the other payload types are zero. -/
def test_args : Args :=
  { in_ssid := [77, 89, 95, 83, 83, 73, 68]
    in_password := [77, 89, 95, 80, 65, 83, 83, 87, 79, 82, 68]
    in_results := fun _ => { ssid := [], strength := 0, open_ := false }
    in_results_size := 10
    out_results_count := 0
    out_err := 0
    ip_info := some 1 }

/-- The configuration of the tests (`test_init`): both ceilings `UINT32_MAX`. -/
def test_config : aos_wifi_client_config_t :=
  { connection_attempts := UINT_MAX, reconnection_attempts := UINT_MAX, event_handler := 1 }

/-- The station configuration holding the tests' ssid and password. -/
def test_sta : Nat → Nat :=
  strcpy (strcpy (fun _ => 0) 0 test_args.in_ssid) SSID_SIZE test_args.in_password

/-- The world of the tests after `test_init`: every future is allocated as `test_args`. -/
def test_boot : World :=
  boot test_config (fun _ => test_args)

/-- What one handler run does to a future `f` other than the one the event carries:
either `f` stays where it was (in a slot or not) and is not resolved, or it was
pending, leaves its slot and is resolved once. -/
def Framed (w w' : World) (f : Fut) : Prop :=
  ((w'.ctx.connect_future = some f ↔ w.ctx.connect_future = some f) ∧
    (w'.ctx.scan_future = some f ↔ w.ctx.scan_future = some f) ∧
    resolutions f (appended w w') = []) ∨
  (pending w f ∧ ¬ pending w' f ∧ ∃ v, resolutions f (appended w w') = [v])

/-- What one handler run does with the future `g` its event `e` carries: it resolves it
once and leaves it in no slot, or (connect and scan only) it does not resolve it and
leaves it in the slot of its kind. -/
def Own (e : Event) (w w' : World) : Prop :=
  ((∃ v, resolutions e.future (appended w w') = [v]) ∧ ¬ pending w' e.future) ∨
  (resolutions e.future (appended w w') = [] ∧
    (((∃ f, e = .connect f) ∧ w'.ctx.connect_future = some e.future ∧
        w'.ctx.scan_future ≠ some e.future) ∨
     ((∃ f, e = .scan f) ∧ w'.ctx.scan_future = some e.future ∧
        w'.ctx.connect_future ≠ some e.future)))

/-- The futures of a sequence of events. -/
def futures (evs : List (Driver × Event)) : List Fut :=
  evs.map (fun p => p.2.future)

/-- The bookkeeping of futures in a world: a future not yet issued is neither resolved
nor pending, no future is in both slots, and an issued future is either pending and
unresolved or not pending and resolved once. -/
def Accounted (w : World) (issued : List Fut) : Prop :=
  (∀ f, f ∉ issued → resolutions f w.trace = [] ∧ ¬ pending w f) ∧
  (∀ f, ¬ (w.ctx.connect_future = some f ∧ w.ctx.scan_future = some f)) ∧
  (∀ f, f ∈ issued →
    (pending w f ∧ resolutions f w.trace = []) ∨
    (¬ pending w f ∧ ∃ v, resolutions f w.trace = [v]))

/-- What a connect (within the length limits), disconnect or stop request does when no
scan is pending and the phase is not Connected: every connect future pending before
is resolved with `out_err = 1` and no other future but the request's own is resolved;
a connect request's own future ends pending and unresolved, or resolved with 1. -/
def QuietStep (e : Event) (w w' : World) : Prop :=
  w'.ctx.state ≠ .CONNECTED ∧ w'.ctx.scan_future = none ∧
  (∀ f, (w'.heap f).in_ssid = (w.heap f).in_ssid ∧
    (w'.heap f).in_password = (w.heap f).in_password) ∧
  w'.trace = w.trace ++ appended w w' ∧
  (∀ f, f ≠ e.future → w'.ctx.connect_future ≠ some f ∧
    resolutions f (appended w w') = if w.ctx.connect_future = some f then [1] else []) ∧
  ((∃ g, e = .connect g) →
    (w'.ctx.connect_future = some e.future ∧ resolutions e.future (appended w w') = []) ∨
    (w'.ctx.connect_future ≠ some e.future ∧ resolutions e.future (appended w w') = [1])) ∧
  ((∃ g, e = .stop g) → w'.ctx.connect_future = none)

/-- The requests of the scenario: a connect whose credentials, as the caller allocated
them in `w0`, are within the length limits, or a disconnect. -/
def is_request (w0 : World) : Event → Prop
  | .connect g => strlen (w0.heap g).in_ssid ≤ SSID_SIZE ∧
      strlen (w0.heap g).in_password ≤ PASSWORD_SIZE
  | .disconnect _ => True
  | _ => False

/-- The state of the bookkeeping after the requests `reqs` were processed from `w0`
with no driver notification in between. -/
def QuietInv (w0 w : World) (reqs : List (Driver × Event)) : Prop :=
  w.ctx.state ≠ .CONNECTED ∧ w.ctx.scan_future = none ∧
  (∀ f, (w.heap f).in_ssid = (w0.heap f).in_ssid ∧
    (w.heap f).in_password = (w0.heap f).in_password) ∧
  w.trace = w0.trace ++ appended w0 w ∧
  (∀ f, f ∉ futures reqs →
    resolutions f (appended w0 w) = [] ∧ w.ctx.connect_future ≠ some f) ∧
  (∀ p ∈ reqs, ∀ f, p.2 = .connect f →
    (w.ctx.connect_future = some f ∧ resolutions f (appended w0 w) = []) ∨
    (w.ctx.connect_future ≠ some f ∧ resolutions f (appended w0 w) = [1]))

/-- The tests' world after a successful start (future 0). -/
def test_started : World :=
  run test_boot [(driver_ok (fun _ => 0), .start 0)]

/-- The tests' world after a successful start and an accepted connect request
(future 1): phase Connecting, future 1 pending. -/
def test_connecting : World :=
  run test_boot [(driver_ok (fun _ => 0), .start 0), (driver_ok (fun _ => 0), .connect 1)]

instance is_request_decidable (w0 : World) : (e : Event) → Decidable (is_request w0 e)
  | .connect g => inferInstanceAs (Decidable (strlen (w0.heap g).in_ssid ≤ SSID_SIZE ∧
      strlen (w0.heap g).in_password ≤ PASSWORD_SIZE))
  | .disconnect _ => isTrue trivial
  | .start _ => isFalse (fun h => h)
  | .stop _ => isFalse (fun h => h)
  | .scan _ => isFalse (fun h => h)
  | .connected _ => isFalse (fun h => h)
  | .disconnected _ => isFalse (fun h => h)
  | .scandone _ => isFalse (fun h => h)

/-- The tests' world after a successful start, an accepted connect request (future 1)
and the driver's connected notification (future 2): phase Connected. -/
def test_connected : World :=
  run test_boot [(driver_ok (fun _ => 0), .start 0), (driver_ok (fun _ => 0), .connect 1),
    (driver_ok test_sta, .connected 2)]

/-- A trace entry is a call of the driver's `esp_wifi_connect`. -/
def is_connect_call : Effect → Bool
  | .call (.esp_wifi_connect _) => true
  | _ => false

/-- The number of `esp_wifi_connect` calls in a trace. -/
def connect_calls (tr : List Effect) : Nat :=
  tr.countP is_connect_call

/-- The tests' configuration with the connection ceiling `n`. -/
def config_attempts (n : Nat) : aos_wifi_client_config_t :=
  { test_config with connection_attempts := n }

/-- The world after init with connection ceiling `n`, a successful start (future 0) and
an accepted connect request (future 1). -/
def connecting_with (n : Nat) : World :=
  run (boot (config_attempts n) (fun _ => test_args))
    [(driver_ok (fun _ => 0), .start 0), (driver_ok (fun _ => 0), .connect 1)]

/-- The tests' world after a successful start and an accepted scan request (future 1):
future 1 is the pending scan. -/
def test_scanning : World :=
  run test_boot [(driver_ok (fun _ => 0), .start 0), (driver_ok (fun _ => 0), .scan 1)]

/-- A driver whose `esp_wifi_scan_get_ap_records` fails, everything else as
`driver_ok`. -/
def driver_records_fail : Driver :=
  { driver_ok (fun _ => 0) with esp_wifi_scan_get_ap_records := fun _ => (1, []) }

/-- A driver whose scan found the access points `recs`, everything else as
`driver_ok`. -/
def driver_records (recs : List wifi_ap_record_t) : Driver :=
  { driver_ok (fun _ => 0) with esp_wifi_scan_get_ap_records := fun _ => (ESP_OK, recs) }

/-! ## Vocabulary of the start, counter and observer properties -/

/-- The effect of one trace entry on the event subscriptions the driver holds: a
successful `esp_event_handler_instance_register` adds its event base, an
`esp_event_handler_instance_unregister` removes it. -/
def subscribe_step (subs : List esp_event_base_t) : Effect → List esp_event_base_t
  | .call (.esp_event_handler_instance_register base ret) =>
    if ret = ESP_OK then subs ++ [base] else subs
  | .call (.esp_event_handler_instance_unregister base _) => subs.filter (fun b => b != base)
  | _ => subs

/-- The event subscriptions a trace leaves registered, none being registered before. -/
def subscriptions (tr : List Effect) : List esp_event_base_t :=
  tr.foldl subscribe_step []

/-- A driver whose WiFi-event registration fails, everything else as `driver_ok`. -/
def driver_register_wifi_fails : Driver :=
  { driver_ok (fun _ => 0) with register_wifi := (1, none) }

/-- The world after `test_init` in which the start future 0 was allocated with
`out_err = 5` (`AOS_AWAITABLE_ALLOC_T(aos_wifi_client_start)(5)`). -/
def test_boot_out_err : World :=
  boot test_config (fun _ => { test_args with out_err := 5 })

/-- The tests' world after a successful start, an accepted connect request (future 1)
and a stop (future 2). -/
def test_stopped : World :=
  run test_boot [(driver_ok (fun _ => 0), .start 0), (driver_ok (fun _ => 0), .connect 1),
    (driver_ok (fun _ => 0), .stop 2)]

/-- A driver whose IP-event registration fails, everything else as `driver_ok`. -/
def driver_register_ip_fails : Driver :=
  { driver_ok (fun _ => 0) with register_ip := (1, none) }

/-- A second configuration: both ceilings 3, another observer. -/
def other_config : aos_wifi_client_config_t :=
  { connection_attempts := 3, reconnection_attempts := 3, event_handler := 2 }

/-- An allocator and task primitive that succeed throughout `aos_wifi_client_init`. -/
def init_env_ok : InitEnv :=
  { calloc_ok := true, task_alloc_ok := true, handler_set := [0, 0, 0, 0, 0, 0] }

/-- The tests' world after a successful start, an accepted connect (future 1), the
connected notification (future 2) and a disconnected notification (future 3) whose
reissued connect call succeeded: phase Reconnecting, `reconnection_attempt = 1`. -/
def test_reconnecting : World :=
  run test_boot [(driver_ok (fun _ => 0), .start 0), (driver_ok (fun _ => 0), .connect 1),
    (driver_ok test_sta, .connected 2), (driver_ok test_sta, .disconnected 3)]

/-- The handler run made a set-config call that succeeded: the connect handler got as
far as resetting the two attempt counters. -/
def set_config_succeeded (tr : List Effect) : Prop :=
  ∃ s p, Effect.call (.esp_wifi_set_config s p ESP_OK) ∈ tr

/-- The observer notifications in a trace, in order: the event each call of
`ctx->config.event_handler` was given. -/
def notifications : List Effect → List aos_wifi_client_event_t
  | [] => []
  | .event_handler _ ev :: rest => ev :: notifications rest
  | .call _ :: rest => notifications rest
  | .resolve _ _ :: rest => notifications rest
  | .connect_future _ :: rest => notifications rest
  | .scan_future _ :: rest => notifications rest

/-- The world after init with the tests' configuration but the reconnection ceiling 0,
a successful start (future 0), an accepted connect (future 1), the connected
notification (future 2) and a disconnected notification (future 3) whose reissued
connect call succeeded: phase Reconnecting, `reconnection_attempt = 1`, above the
ceiling. -/
def test_reconnect_exhausted : World :=
  run (boot { test_config with reconnection_attempts := 0 } (fun _ => test_args))
    [(driver_ok (fun _ => 0), .start 0), (driver_ok (fun _ => 0), .connect 1),
      (driver_ok test_sta, .connected 2), (driver_ok test_sta, .disconnected 3)]

/-- The tests' payload with an ssid of 32 bytes `A` and a password of 64 bytes `B`: the
longest strings the length validation of the connect handler lets through. -/
def full_width_args : Args :=
  { test_args with
    in_ssid := List.replicate 32 65
    in_password := List.replicate 64 66 }

/-- The started world of the tests in which future 1 carries `full_width_args`. -/
def test_full_width : World :=
  { test_started with heap := fun _ => full_width_args }

/-! ## Lemmas on the C library functions -/

theorem shift_cstr_cons (c : Nat) (t : List Nat) : shift (cstr (c :: t)) 1 = cstr t := by
  funext i
  simp [shift, cstr]

theorem range_map_succ (a : Nat → Nat) (n : Nat) :
    (List.range (n + 1)).map a = a 0 :: (List.range n).map (shift a 1) := by
  rw [List.range_succ_eq_map]
  simp [shift, Function.comp_def]

/-- `strncmp` of a byte field against a C string that fits the field is zero exactly
when the field holds that string. -/
theorem strncmp_eq_zero_iff (n : Nat) : ∀ (a : Nat → Nat) (s : List Nat),
    strlen s ≤ n →
    (strncmp a (cstr s) n = 0 ↔
      ((List.range n).map a).takeWhile (fun c => c != 0) = c_string s) := by
  induction n with
  | zero =>
    intro a s h
    simp [strlen] at h
    simp [strncmp, c_string, h]
  | succ n ih =>
    intro a s h
    rw [range_map_succ]
    cases s with
    | nil =>
      by_cases h0 : a 0 = 0
      · simp [strncmp, cstr, c_string, h0]
      · simp [strncmp, cstr, c_string, h0]
    | cons c t =>
      by_cases hc : c = 0
      · subst hc
        by_cases h0 : a 0 = 0
        · simp [strncmp, cstr, c_string, h0]
        · simp [strncmp, cstr, c_string, h0]
      · have ht : strlen t ≤ n := by
          simp [strlen, List.takeWhile_cons, hc] at h
          simpa [strlen] using h
        by_cases hac : a 0 = c
        · have := ih (shift a 1) t ht
          simp only [strncmp]
          rw [shift_cstr_cons]
          simp [cstr, c_string, hac, hc, List.takeWhile_cons, this]
        · simp [strncmp, cstr, c_string, hac, hc, List.takeWhile_cons]
          constructor
          · omega
          · by_cases h0 : a 0 = 0
            · simp [h0]
            · simp [h0, hac]

theorem field_string_length (m : Nat → Nat) (off n : Nat) :
    (field_string m off n).length ≤ n := by
  have h := (List.takeWhile_sublist (fun c => c != 0) (l := peek m off n)).length_le
  simpa [field_string, peek] using h

/-- The guard of the connect handler on one field, in terms of the strings compared. -/
theorem strncmp_field (m : Nat → Nat) (off n : Nat) (s : List Nat) (h : strlen s ≤ n) :
    strncmp (shift m off) (cstr s) n = 0 ↔ field_string m off n = c_string s := by
  simpa [field_string, peek] using strncmp_eq_zero_iff n (shift m off) s h

/-! ## Lemmas on traces -/

theorem resolutions_append (f : Fut) (a b : List Effect) :
    resolutions f (a ++ b) = resolutions f a ++ resolutions f b := by
  induction a with
  | nil => simp [resolutions]
  | cons e rest ih =>
    cases e <;> simp [resolutions, ih]
    split <;> simp

theorem appended_eq (w w' : World) (l : List Effect) (h : w'.trace = w.trace ++ l) :
    appended w w' = l := by
  simp [appended, h]

/-! ## Lemmas on the handlers -/

theorem update_out_err_in_ssid (h : Fut → Args) (cf f : Fut) (a : Args)
    (ha : a.in_ssid = (h cf).in_ssid) :
    (Function.update h cf a f).in_ssid = (h f).in_ssid := by
  by_cases hc : f = cf
  · subst hc; simp [ha]
  · simp [Function.update_noteq hc]

theorem update_out_err_in_password (h : Fut → Args) (cf f : Fut) (a : Args)
    (ha : a.in_password = (h cf).in_password) :
    (Function.update h cf a f).in_password = (h f).in_password := by
  by_cases hc : f = cf
  · subst hc; simp [ha]
  · simp [Function.update_noteq hc]

theorem update_out_err_ip_info (h : Fut → Args) (cf f : Fut) (a : Args)
    (ha : a.ip_info = (h cf).ip_info) :
    (Function.update h cf a f).ip_info = (h f).ip_info := by
  by_cases hc : f = cf
  · subst hc; simp [ha]
  · simp [Function.update_noteq hc]

/-- What the start handler leaves alone, and what it appends to the trace: driver
calls and one resolution, of its own future. -/
theorem onstart_summary (d : Driver) (f : Fut) (w : World) :
    (_aos_wifi_client_onstart d f w).1.ctx.connect_future = w.ctx.connect_future ∧
    (_aos_wifi_client_onstart d f w).1.ctx.scan_future = w.ctx.scan_future ∧
    (_aos_wifi_client_onstart d f w).1.ctx.state = w.ctx.state ∧
    (_aos_wifi_client_onstart d f w).1.trace =
      w.trace ++ appended w (_aos_wifi_client_onstart d f w).1 ∧
    ∀ g, resolutions g (appended w (_aos_wifi_client_onstart d f w).1) =
      if f = g then [((_aos_wifi_client_onstart d f w).1.heap f).out_err] else [] := by
  by_cases h0 : d.esp_netif_create_default_wifi_sta = none
  · simp [_aos_wifi_client_onstart, h0, emit, aos_resolve, set_out_err, appended, resolutions]
  by_cases h1 : d.esp_wifi_init = ESP_OK
  swap
  · simp [_aos_wifi_client_onstart, h0, h1, emit, aos_resolve, set_out_err, appended, resolutions]
  by_cases h2 : d.esp_wifi_set_mode = ESP_OK
  swap
  · simp [_aos_wifi_client_onstart, h0, h1, h2, emit, aos_resolve, set_out_err, appended, resolutions]
  by_cases h3 : d.esp_wifi_set_ps = ESP_OK
  swap
  · simp [_aos_wifi_client_onstart, h0, h1, h2, h3, emit, aos_resolve, set_out_err, appended, resolutions]
  by_cases h4 : d.esp_wifi_start = ESP_OK
  swap
  · simp [_aos_wifi_client_onstart, h0, h1, h2, h3, h4, emit, aos_resolve, set_out_err, appended, resolutions]
  by_cases h5 : d.register_ip.1 = ESP_OK
  swap
  · simp [_aos_wifi_client_onstart, h0, h1, h2, h3, h4, h5, emit, aos_resolve, set_out_err, appended, resolutions]
  by_cases h6 : d.register_wifi.1 = ESP_OK
  swap
  · simp [_aos_wifi_client_onstart, h0, h1, h2, h3, h4, h5, h6, emit, aos_resolve, set_out_err, appended, resolutions]
  · simp [_aos_wifi_client_onstart, h0, h1, h2, h3, h4, h5, h6, emit, aos_resolve, set_out_err, appended, resolutions]

theorem frame_connect (d : Driver) (g : Fut) (w : World) (f : Fut) (hf : f ≠ g)
    (hdist : ¬ (w.ctx.connect_future = some f ∧ w.ctx.scan_future = some f)) :
    Framed w (_aos_wifi_client_connect_handler d g w) f := by
  simp only [Framed, _aos_wifi_client_connect_handler]
  cases hc : w.ctx.connect_future with
  | none =>
    split_ifs <;>
    simp_all [_aos_wifi_client_disconnect, emit, aos_resolve, pending, appended,
      set_out_err, set_state, set_connect_future, resolutions, Ne.symm hf, hf]
  | some cf =>
    by_cases hcf : cf = f <;> split_ifs <;>
    simp_all [_aos_wifi_client_disconnect, emit, aos_resolve, pending, appended,
      set_out_err, set_state, set_connect_future, resolutions, Ne.symm hf, hf]

theorem frame_disconnect (g : Fut) (w : World) (f : Fut) (hf : f ≠ g)
    (hdist : ¬ (w.ctx.connect_future = some f ∧ w.ctx.scan_future = some f)) :
    Framed w (_aos_wifi_client_disconnect_handler g w) f := by
  simp only [Framed, _aos_wifi_client_disconnect_handler]
  cases hc : w.ctx.connect_future with
  | none =>
    simp_all [_aos_wifi_client_disconnect, emit, aos_resolve, pending, appended,
      set_out_err, set_state, set_connect_future, resolutions, Ne.symm hf, hf]
  | some cf =>
    by_cases hcf : cf = f <;>
    simp_all [_aos_wifi_client_disconnect, emit, aos_resolve, pending, appended,
      set_out_err, set_state, set_connect_future, resolutions, Ne.symm hf, hf]

theorem frame_stop (d : Driver) (g : Fut) (w : World) (f : Fut) (hf : f ≠ g)
    (hdist : ¬ (w.ctx.connect_future = some f ∧ w.ctx.scan_future = some f)) :
    Framed w (_aos_wifi_client_onstop d g w).1 f := by
  simp only [Framed, _aos_wifi_client_onstop]
  cases hc : w.ctx.connect_future with
  | none =>
    cases hs : w.ctx.scan_future with
    | none =>
      simp_all [_aos_wifi_client_disconnect, _aos_wifi_client_stopcurrentscan, emit,
        aos_resolve, pending, appended, set_scan_future,
        set_out_err, set_state, set_connect_future, resolutions, Ne.symm hf, hf]
    | some sf =>
      by_cases hsf : sf = f <;>
      simp_all [_aos_wifi_client_disconnect, _aos_wifi_client_stopcurrentscan, emit,
        aos_resolve, pending, appended, set_scan_future,
        set_out_err, set_state, set_connect_future, resolutions, Ne.symm hf, hf]
  | some cf =>
    cases hs : w.ctx.scan_future with
    | none =>
      by_cases hcf : cf = f <;>
      simp_all [_aos_wifi_client_disconnect, _aos_wifi_client_stopcurrentscan, emit,
        aos_resolve, pending, appended, set_scan_future,
        set_out_err, set_state, set_connect_future, resolutions, Ne.symm hf, hf]
    | some sf =>
      by_cases hcf : cf = f <;> by_cases hsf : sf = f <;>
      simp_all [_aos_wifi_client_disconnect, _aos_wifi_client_stopcurrentscan, emit,
        aos_resolve, pending, appended, set_scan_future,
        set_out_err, set_state, set_connect_future, resolutions, Ne.symm hf, hf]

theorem frame_start (d : Driver) (g : Fut) (w : World) (f : Fut) (hf : f ≠ g) :
    Framed w (_aos_wifi_client_onstart d g w).1 f := by
  obtain ⟨h1, h2, _, _, h5⟩ := onstart_summary d g w
  left
  simp [h1, h2, h5 f, Ne.symm hf]

theorem frame_scan (d : Driver) (g : Fut) (w : World) (f : Fut) (hf : f ≠ g)
    (hdist : ¬ (w.ctx.connect_future = some f ∧ w.ctx.scan_future = some f)) :
    Framed w (_aos_wifi_client_scan_handler d g w) f := by
  simp only [Framed, _aos_wifi_client_scan_handler]
  cases hs : w.ctx.scan_future with
  | none =>
    split_ifs <;>
    simp_all [_aos_wifi_client_stopcurrentscan, emit, aos_resolve, pending, appended,
      set_out_err, set_scan_future, resolutions, Ne.symm hf, hf]
  | some sf =>
    by_cases hsf : sf = f <;> split_ifs <;>
    simp_all [_aos_wifi_client_stopcurrentscan, emit, aos_resolve, pending, appended,
      set_out_err, set_scan_future, resolutions, Ne.symm hf, hf]

theorem frame_connected (g : Fut) (w : World) (f : Fut) (hf : f ≠ g)
    (hdist : ¬ (w.ctx.connect_future = some f ∧ w.ctx.scan_future = some f)) :
    Framed w (_aos_wifi_client_onconnected_handler g w) f := by
  simp only [Framed, _aos_wifi_client_onconnected_handler]
  cases hc : w.ctx.connect_future with
  | none =>
    cases hst : w.ctx.state <;>
    simp_all [emit, aos_resolve, pending, appended, notify,
      set_out_err, set_state, set_connect_future, resolutions, Ne.symm hf, hf]
  | some cf =>
    by_cases hcf : cf = f <;> cases hst : w.ctx.state <;>
    simp_all [emit, aos_resolve, pending, appended, notify,
      set_out_err, set_state, set_connect_future, resolutions, Ne.symm hf, hf]

theorem frame_disconnected (d : Driver) (g : Fut) (w : World) (f : Fut) (hf : f ≠ g)
    (hdist : ¬ (w.ctx.connect_future = some f ∧ w.ctx.scan_future = some f)) :
    Framed w (_aos_wifi_client_ondisconnected_handler d g w) f := by
  simp only [Framed, _aos_wifi_client_ondisconnected_handler]
  cases hc : w.ctx.connect_future with
  | none =>
    cases hst : w.ctx.state <;> simp only [] <;> (try split_ifs) <;>
    simp_all [_aos_wifi_client_disconnect, emit, aos_resolve, pending, appended, notify,
      set_out_err, set_state, set_connect_future, resolutions, Ne.symm hf, hf]
  | some cf =>
    by_cases hcf : cf = f <;> cases hst : w.ctx.state <;> simp only [] <;> (try split_ifs) <;>
    simp_all [_aos_wifi_client_disconnect, emit, aos_resolve, pending, appended, notify,
      set_out_err, set_state, set_connect_future, resolutions, Ne.symm hf, hf]

theorem frame_scandone (d : Driver) (g : Fut) (w : World) (f : Fut) (hf : f ≠ g)
    (hdist : ¬ (w.ctx.connect_future = some f ∧ w.ctx.scan_future = some f)) :
    Framed w (_aos_wifi_client_onscandone_handler d g w) f := by
  simp only [Framed, _aos_wifi_client_onscandone_handler]
  cases hs : w.ctx.scan_future with
  | none =>
    simp_all [emit, aos_resolve, pending, appended,
      set_out_err, set_scan_future, resolutions, Ne.symm hf, hf]
  | some sf =>
    by_cases hsf : sf = f <;> simp only [] <;> split_ifs <;>
    simp_all [emit, aos_resolve, pending, appended, set_in_results, set_out_results_count,
      set_out_err, set_scan_future, resolutions, Ne.symm hf, hf]

/-- Every handler run frames every future other than its own. -/
theorem dispatch_framed (d : Driver) (e : Event) (w : World) (f : Fut) (hf : f ≠ e.future)
    (hdist : ¬ (w.ctx.connect_future = some f ∧ w.ctx.scan_future = some f)) :
    Framed w (dispatch d e w) f := by
  cases e with
  | start g => exact frame_start d g w f hf
  | stop g => exact frame_stop d g w f hf hdist
  | connect g => exact frame_connect d g w f hf hdist
  | disconnect g => exact frame_disconnect g w f hf hdist
  | scan g => exact frame_scan d g w f hf hdist
  | connected g => exact frame_connected g w f hf hdist
  | disconnected g => exact frame_disconnected d g w f hf hdist
  | scandone g => exact frame_scandone d g w f hf hdist

theorem run_append (w : World) (a b : List (Driver × Event)) :
    run w (a ++ b) = run (run w a) b := by
  induction a generalizing w with
  | nil => rfl
  | cons p rest ih =>
    obtain ⟨d, e⟩ := p
    simp [run, ih]

theorem run_snoc (w : World) (a : List (Driver × Event)) (d : Driver) (e : Event) :
    run w (a ++ [(d, e)]) = dispatch d e (run w a) := by
  rw [run_append]; rfl

/-- One handler run keeps: a pending connect future implies phase Connecting. -/
theorem dispatch_pending_connect_phase (d : Driver) (e : Event) (w : World)
    (h : w.ctx.connect_future ≠ none → w.ctx.state = .CONNECTING) :
    (dispatch d e w).ctx.connect_future ≠ none →
      (dispatch d e w).ctx.state = .CONNECTING := by
  cases e with
  | start f =>
    obtain ⟨h1, _, h3, _⟩ := onstart_summary d f w
    simpa [dispatch, h1, h3] using h
  | stop f =>
    cases hs : w.ctx.scan_future <;> cases hc : w.ctx.connect_future <;>
    simp [dispatch, _aos_wifi_client_onstop, _aos_wifi_client_stopcurrentscan,
      _aos_wifi_client_disconnect, emit, aos_resolve, set_out_err, set_connect_future,
      set_scan_future, hs, hc]
  | connect f =>
    simp only [dispatch, _aos_wifi_client_connect_handler]
    cases hc : w.ctx.connect_future <;> split_ifs <;>
    simp_all [_aos_wifi_client_disconnect, emit, aos_resolve, set_out_err, set_state,
      set_connect_future]
  | disconnect f =>
    cases hc : w.ctx.connect_future <;>
    simp [dispatch, _aos_wifi_client_disconnect_handler,
      _aos_wifi_client_disconnect, emit, aos_resolve, set_out_err, set_connect_future,
      set_state, hc]
  | scan f =>
    simp only [dispatch, _aos_wifi_client_scan_handler]
    cases hs : w.ctx.scan_future <;> split_ifs <;>
    simpa [_aos_wifi_client_stopcurrentscan, emit, aos_resolve, set_out_err,
      set_scan_future, hs] using h
  | connected f =>
    cases hc : w.ctx.connect_future <;> cases hst : w.ctx.state <;>
    simp_all [dispatch, _aos_wifi_client_onconnected_handler, emit, aos_resolve, set_out_err,
      set_connect_future, set_state, notify]
  | disconnected f =>
    simp only [dispatch, _aos_wifi_client_ondisconnected_handler]
    cases hc : w.ctx.connect_future <;> cases hst : w.ctx.state <;> simp only [] <;>
    (try split_ifs) <;>
    simp_all [_aos_wifi_client_disconnect, emit, aos_resolve, set_out_err,
      set_connect_future, set_state, notify]
  | scandone f =>
    simp only [dispatch, _aos_wifi_client_onscandone_handler]
    cases hs : w.ctx.scan_future <;> simp only [] <;> try split_ifs
    all_goals simpa [emit, aos_resolve, set_out_err, set_scan_future, set_in_results,
        set_out_results_count] using h

/-- In every state the worker reaches from the initial one, a pending connect future
implies phase Connecting. -/
theorem run_pending_connect_phase (config : aos_wifi_client_config_t) (heap : Fut → Args)
    (evs : List (Driver × Event)) :
    (run (boot config heap) evs).ctx.connect_future ≠ none →
      (run (boot config heap) evs).ctx.state = .CONNECTING := by
  induction evs using List.reverseRecOn with
  | nil => simp [run, boot, ctx_calloc]
  | append_singleton l p ih =>
    obtain ⟨d, e⟩ := p
    rw [run_snoc]
    exact dispatch_pending_connect_phase d e _ ih

theorem own_start (d : Driver) (g : Fut) (w : World) (hfresh : ¬ pending w g) :
    Own (.start g) w (dispatch d (.start g) w) ∧
      (dispatch d (.start g) w).trace = w.trace ++ appended w (dispatch d (.start g) w) := by
    obtain ⟨h1, h2, _, h4, h5⟩ := onstart_summary d g w
    refine ⟨?_, h4⟩
    left
    simp only [Event.future, pending, dispatch, h1, h2, h5 g] at hfresh ⊢
    simpa using hfresh

theorem own_stop (d : Driver) (g : Fut) (w : World) (hfresh : ¬ pending w g) :
    Own (.stop g) w (dispatch d (.stop g) w) ∧
      (dispatch d (.stop g) w).trace = w.trace ++ appended w (dispatch d (.stop g) w) := by
    simp only [Own, Event.future, dispatch, _aos_wifi_client_onstop]
    cases hc : w.ctx.connect_future <;> cases hs : w.ctx.scan_future <;>
      simp_all [_aos_wifi_client_disconnect, _aos_wifi_client_stopcurrentscan, emit,
        aos_resolve, pending, appended, set_scan_future, Event.future,
        set_out_err, set_state, set_connect_future, resolutions]

theorem own_connect (d : Driver) (g : Fut) (w : World) (hfresh : ¬ pending w g) :
    Own (.connect g) w (dispatch d (.connect g) w) ∧
      (dispatch d (.connect g) w).trace = w.trace ++ appended w (dispatch d (.connect g) w) := by
    simp only [Own, Event.future, dispatch, _aos_wifi_client_connect_handler]
    cases hc : w.ctx.connect_future <;> split_ifs <;>
      simp_all [_aos_wifi_client_disconnect, emit,
        aos_resolve, pending, appended, Event.future,
        set_out_err, set_state, set_connect_future, resolutions]

theorem own_disconnect (d : Driver) (g : Fut) (w : World) (hfresh : ¬ pending w g) :
    Own (.disconnect g) w (dispatch d (.disconnect g) w) ∧
      (dispatch d (.disconnect g) w).trace = w.trace ++ appended w (dispatch d (.disconnect g) w) := by
    simp only [Own, Event.future, dispatch, _aos_wifi_client_disconnect_handler]
    cases hc : w.ctx.connect_future <;>
      simp_all [_aos_wifi_client_disconnect, emit,
        aos_resolve, pending, appended, Event.future,
        set_out_err, set_state, set_connect_future, resolutions]

theorem own_scan (d : Driver) (g : Fut) (w : World) (hfresh : ¬ pending w g) :
    Own (.scan g) w (dispatch d (.scan g) w) ∧
      (dispatch d (.scan g) w).trace = w.trace ++ appended w (dispatch d (.scan g) w) := by
    simp only [Own, Event.future, dispatch, _aos_wifi_client_scan_handler]
    cases hs : w.ctx.scan_future <;> split_ifs <;>
      simp_all [_aos_wifi_client_stopcurrentscan, emit,
        aos_resolve, pending, appended, Event.future,
        set_out_err, set_scan_future, resolutions]

theorem own_connected (d : Driver) (g : Fut) (w : World) (hfresh : ¬ pending w g) :
    Own (.connected g) w (dispatch d (.connected g) w) ∧
      (dispatch d (.connected g) w).trace = w.trace ++ appended w (dispatch d (.connected g) w) := by
    simp only [Own, Event.future, dispatch, _aos_wifi_client_onconnected_handler]
    cases hc : w.ctx.connect_future <;> cases hst : w.ctx.state <;>
      simp_all [emit, notify,
        aos_resolve, pending, appended, Event.future,
        set_out_err, set_state, set_connect_future, resolutions]

theorem own_disconnected (d : Driver) (g : Fut) (w : World) (hfresh : ¬ pending w g) :
    Own (.disconnected g) w (dispatch d (.disconnected g) w) ∧
      (dispatch d (.disconnected g) w).trace = w.trace ++ appended w (dispatch d (.disconnected g) w) := by
    simp only [Own, Event.future, dispatch, _aos_wifi_client_ondisconnected_handler]
    cases hc : w.ctx.connect_future <;> cases hst : w.ctx.state <;> simp only [] <;>
      (try split_ifs) <;>
      simp_all [_aos_wifi_client_disconnect, emit, notify,
        aos_resolve, pending, appended, Event.future,
        set_out_err, set_state, set_connect_future, resolutions]

theorem own_scandone (d : Driver) (g : Fut) (w : World) (hfresh : ¬ pending w g) :
    Own (.scandone g) w (dispatch d (.scandone g) w) ∧
      (dispatch d (.scandone g) w).trace = w.trace ++ appended w (dispatch d (.scandone g) w) := by
    simp only [Own, Event.future, dispatch, _aos_wifi_client_onscandone_handler]
    cases hs : w.ctx.scan_future <;> simp only [] <;> (try split_ifs) <;>
      simp_all [emit, set_in_results, set_out_results_count,
        aos_resolve, pending, appended, Event.future,
        set_out_err, set_scan_future, resolutions]

/-- Every handler run resolves the future of its event once, or leaves it pending; and
it only appends to the trace. -/
theorem dispatch_own (d : Driver) (e : Event) (w : World) (hfresh : ¬ pending w e.future) :
    Own e w (dispatch d e w) ∧
      (dispatch d e w).trace = w.trace ++ appended w (dispatch d e w) := by
  cases e with
  | start g => exact own_start d g w hfresh
  | stop g => exact own_stop d g w hfresh
  | connect g => exact own_connect d g w hfresh
  | disconnect g => exact own_disconnect d g w hfresh
  | scan g => exact own_scan d g w hfresh
  | connected g => exact own_connected d g w hfresh
  | disconnected g => exact own_disconnected d g w hfresh
  | scandone g => exact own_scandone d g w hfresh

/-! ## Lemmas on runs -/

theorem accounted_step (d : Driver) (e : Event) (w : World) (issued : List Fut)
    (h : Accounted w issued) (hg : e.future ∉ issued) :
    Accounted (dispatch d e w) (issued ++ [e.future]) := by
  obtain ⟨ha, hb, hc⟩ := h
  obtain ⟨hown, htr⟩ := dispatch_own d e w (ha _ hg).2
  have hfr : ∀ f, f ≠ e.future → Framed w (dispatch d e w) f :=
    fun f hf => dispatch_framed d e w f hf (hb f)
  have hres : ∀ f, resolutions f (dispatch d e w).trace =
      resolutions f w.trace ++ resolutions f (appended w (dispatch d e w)) := by
    intro f
    rw [← resolutions_append, ← htr]
  refine ⟨?_, ?_, ?_⟩
  · intro f hf
    simp only [List.mem_append, List.mem_singleton, not_or] at hf
    rcases hfr f hf.2 with ⟨h1, h2, h3⟩ | ⟨h1, _, _⟩
    · rw [hres, h3, (ha f hf.1).1]
      refine ⟨rfl, ?_⟩
      have := (ha f hf.1).2
      simp only [pending, h1, h2] at this ⊢
      exact this
    · exact absurd h1 (ha f hf.1).2
  · intro f
    by_cases hf : f = e.future
    · subst hf
      rcases hown with ⟨_, h2⟩ | ⟨_, ⟨_, h2, h3⟩ | ⟨_, h2, h3⟩⟩
      · intro h; exact h2 (Or.inl h.1)
      · intro h; exact h3 h.2
      · intro h; exact h3 h.1
    · rcases hfr f hf with ⟨h1, h2, _⟩ | ⟨_, h2, _⟩
      · rw [h1, h2]; exact hb f
      · intro h; exact h2 (Or.inl h.1)
  · intro f hf
    by_cases hfe : f = e.future
    · subst hfe
      rw [hres, (ha _ hg).1]
      rcases hown with ⟨h1, h2⟩ | ⟨h1, ⟨_, h2, _⟩ | ⟨_, h2, _⟩⟩
      · right; exact ⟨h2, by simpa using h1⟩
      · left; exact ⟨Or.inl h2, by simp [h1]⟩
      · left; exact ⟨Or.inr h2, by simp [h1]⟩
    · have hf' : f ∈ issued := by
        simp only [List.mem_append, List.mem_singleton] at hf
        rcases hf with hf | hf
        · exact hf
        · exact absurd hf hfe
      rw [hres]
      rcases hfr f hfe with ⟨h1, h2, h3⟩ | ⟨h1, h2, v, h3⟩
      · rw [h3, List.append_nil]
        simp only [pending, h1, h2]
        exact hc f hf'
      · right
        rcases hc f hf' with ⟨_, h5⟩ | ⟨h4, _⟩
        · exact ⟨h2, v, by simp [h5, h3]⟩
        · exact absurd h1 h4

theorem accounted_run (config : aos_wifi_client_config_t) (heap : Fut → Args)
    (evs : List (Driver × Event)) (hnd : (futures evs).Nodup) :
    Accounted (run (boot config heap) evs) (futures evs) := by
  induction evs using List.reverseRecOn with
  | nil =>
    simp [Accounted, run, boot, ctx_calloc, futures, resolutions, pending]
  | append_singleton l p ih =>
    obtain ⟨d, e⟩ := p
    have hl : (futures l).Nodup ∧ e.future ∉ futures l := by
      simp only [futures, List.map_append, List.map_cons, List.map_nil] at hnd
      rw [List.nodup_append] at hnd
      refine ⟨hnd.1, ?_⟩
      intro hmem
      exact hnd.2.2 hmem (List.mem_singleton_self _)
    rw [run_snoc]
    have := accounted_step d e _ _ (ih hl.1) hl.2
    simpa [futures] using this

theorem quiet_connect (d : Driver) (g : Fut) (w : World)
    (hlen : strlen (w.heap g).in_ssid ≤ SSID_SIZE ∧
      strlen (w.heap g).in_password ≤ PASSWORD_SIZE)
    (hst : w.ctx.state ≠ .CONNECTED) (hsc : w.ctx.scan_future = none)
    (hfresh : w.ctx.connect_future ≠ some g) :
    QuietStep (.connect g) w (dispatch d (.connect g) w) := by
  have hl : ¬ (strlen (w.heap g).in_ssid > SSID_SIZE ∨
      strlen (w.heap g).in_password > PASSWORD_SIZE) := by omega
  simp only [QuietStep, dispatch, _aos_wifi_client_connect_handler, hl, if_false, Event.future]
  cases hc : w.ctx.connect_future <;> split_ifs <;>
    simp_all [_aos_wifi_client_disconnect, emit, aos_resolve, set_out_err, set_state,
      set_connect_future, appended, resolutions, update_out_err_in_ssid,
      update_out_err_in_password]
  all_goals
    intro f hf
    have hf2 : ¬ g = f := fun h => hf h.symm
    simp [hf2]

theorem quiet_disconnect (d : Driver) (g : Fut) (w : World)
    (hsc : w.ctx.scan_future = none) (hfresh : w.ctx.connect_future ≠ some g) :
    QuietStep (.disconnect g) w (dispatch d (.disconnect g) w) := by
  simp only [QuietStep, dispatch, _aos_wifi_client_disconnect_handler, Event.future]
  cases hc : w.ctx.connect_future <;>
    simp_all [_aos_wifi_client_disconnect, emit, aos_resolve, set_out_err, set_state,
      set_connect_future, appended, resolutions, update_out_err_in_ssid,
      update_out_err_in_password]
  all_goals
    intro f hf
    have hf2 : ¬ g = f := fun h => hf h.symm
    simp [hf2]

theorem quiet_stop (d : Driver) (g : Fut) (w : World)
    (hst : w.ctx.state ≠ .CONNECTED) (hsc : w.ctx.scan_future = none)
    (hfresh : w.ctx.connect_future ≠ some g) :
    QuietStep (.stop g) w (dispatch d (.stop g) w) := by
  simp only [QuietStep, dispatch, _aos_wifi_client_onstop, Event.future]
  cases hc : w.ctx.connect_future <;>
    simp_all [_aos_wifi_client_disconnect, _aos_wifi_client_stopcurrentscan, emit,
      aos_resolve, set_out_err, set_state,
      set_connect_future, appended, resolutions, update_out_err_in_ssid,
      update_out_err_in_password]
  all_goals
    intro f hf
    have hf2 : ¬ g = f := fun h => hf h.symm
    simp [hf2]

theorem appended_trans (w0 w w' : World) (h1 : w.trace = w0.trace ++ appended w0 w)
    (h2 : w'.trace = w.trace ++ appended w w') :
    appended w0 w' = appended w0 w ++ appended w w' ∧
      w'.trace = w0.trace ++ appended w0 w' := by
  have h3 : w'.trace = w0.trace ++ (appended w0 w ++ appended w w') := by
    rw [h2, h1, List.append_assoc]
  have h4 := appended_eq w0 w' _ h3
  rw [h4]
  exact ⟨rfl, h3⟩

theorem mem_futures (p : Driver × Event) (l : List (Driver × Event)) (h : p ∈ l) :
    p.2.future ∈ futures l :=
  List.mem_map_of_mem (fun p => p.2.future) h

theorem quiet_run (w0 : World) (reqs : List (Driver × Event))
    (h0 : w0.ctx.state = .DISCONNECTED ∧ w0.ctx.connect_future = none ∧
      w0.ctx.scan_future = none)
    (hreq : ∀ p ∈ reqs, is_request w0 p.2)
    (hnd : (futures reqs).Nodup) :
    QuietInv w0 (run w0 reqs) reqs := by
  induction reqs using List.reverseRecOn with
  | nil =>
    simp [QuietInv, run, h0, appended, futures, resolutions]
  | append_singleton l p ih =>
    obtain ⟨d, e⟩ := p
    have hl : (futures l).Nodup ∧ e.future ∉ futures l := by
      simp only [futures, List.map_append, List.map_cons, List.map_nil] at hnd
      rw [List.nodup_append] at hnd
      exact ⟨hnd.1, fun hmem => hnd.2.2 hmem (List.mem_singleton_self _)⟩
    obtain ⟨ia, ib, ic, id', ie, ig⟩ :=
      ih (fun p hp => hreq p (List.mem_append_left _ hp)) hl.1
    rw [run_snoc]
    have he := hreq (d, e) (List.mem_append_right _ (List.mem_singleton_self _))
    have hfresh := (ie _ hl.2).2
    have hq : QuietStep e (run w0 l) (dispatch d e (run w0 l)) := by
      cases e with
      | connect g =>
        simp only [is_request] at he
        rw [← (ic g).1, ← (ic g).2] at he
        exact quiet_connect d g _ he ia ib hfresh
      | disconnect g => exact quiet_disconnect d g _ ib hfresh
      | start g => exact absurd he (by simp [is_request])
      | stop g => exact absurd he (by simp [is_request])
      | scan g => exact absurd he (by simp [is_request])
      | connected g => exact absurd he (by simp [is_request])
      | disconnected g => exact absurd he (by simp [is_request])
      | scandone g => exact absurd he (by simp [is_request])
    obtain ⟨qa, qb, qc, qd, qe, qf, _⟩ := hq
    obtain ⟨happ, htr⟩ := appended_trans w0 _ _ id' qd
    refine ⟨qa, qb, ?_, htr, ?_, ?_⟩
    · intro f
      rw [(qc f).1, (qc f).2]
      exact ic f
    · intro f hf
      have hf1 : f ∉ futures l := fun h => hf (by simp [futures] at h ⊢; exact Or.inl h)
      have hf2 : f ≠ e.future := fun h => hf (by simp [futures, h])
      rw [happ, resolutions_append, (ie f hf1).1, (qe f hf2).2]
      simp [(ie f hf1).2, (qe f hf2).1]
    · intro p hp f hpf
      rw [happ, resolutions_append]
      rcases List.mem_append.mp hp with hp | hp
      · have hfl : f ∈ futures l := by
          have := mem_futures p l hp
          rwa [hpf] at this
        have hf2 : f ≠ e.future := fun h => hl.2 (h ▸ hfl)
        right
        refine ⟨(qe f hf2).1, ?_⟩
        rw [(qe f hf2).2]
        rcases ig p hp f hpf with ⟨h1, h2⟩ | ⟨h1, h2⟩
        · simp [h1, h2]
        · simp [h1, h2]
      · have hpe : p = (d, e) := List.mem_singleton.mp hp
        subst hpe
        simp only at hpf
        have hfe : f = e.future := by rw [hpf]; rfl
        subst hfe
        rw [(ie _ hl.2).1, List.nil_append]
        exact qf ⟨_, hpf⟩

/-! ## The properties -/

/-- C1: in every state the worker reaches by events with pairwise distinct futures,
whatever the driver answers, a handler run either resolves the future of its event
exactly once or (connect and scan only) leaves it unresolved in the pending slot of
its kind, and every future it takes out of a pending slot it resolves exactly once;
hence after the run no future has been resolved twice, and every future issued so
far is either still pending and unresolved or resolved exactly once. -/
theorem futures_resolved_exactly_once (config : aos_wifi_client_config_t)
    (heap : Fut → Args) (evs : List (Driver × Event)) (d : Driver) (e : Event)
    (hnd : (futures (evs ++ [(d, e)])).Nodup) :
    Own e (run (boot config heap) evs) (dispatch d e (run (boot config heap) evs)) ∧
    (∀ f, pending (run (boot config heap) evs) f →
      ¬ pending (dispatch d e (run (boot config heap) evs)) f →
      ∃ v, resolutions f (appended (run (boot config heap) evs)
        (dispatch d e (run (boot config heap) evs))) = [v]) ∧
    (∀ f, (resolutions f (run (boot config heap) (evs ++ [(d, e)])).trace).length ≤ 1) ∧
    (∀ f ∈ futures (evs ++ [(d, e)]),
      (pending (run (boot config heap) (evs ++ [(d, e)])) f ∧
        resolutions f (run (boot config heap) (evs ++ [(d, e)])).trace = []) ∨
      (¬ pending (run (boot config heap) (evs ++ [(d, e)])) f ∧
        ∃ v, resolutions f (run (boot config heap) (evs ++ [(d, e)])).trace = [v])) := by
  have hl : (futures evs).Nodup ∧ e.future ∉ futures evs := by
    simp only [futures, List.map_append, List.map_cons, List.map_nil] at hnd
    rw [List.nodup_append] at hnd
    exact ⟨hnd.1, fun hmem => hnd.2.2 hmem (List.mem_singleton_self _)⟩
  have hacc := accounted_run config heap evs hl.1
  have hacc' := accounted_run config heap (evs ++ [(d, e)]) hnd
  have hfresh := (hacc.1 _ hl.2).2
  refine ⟨(dispatch_own d e _ hfresh).1, ?_, ?_, hacc'.2.2⟩
  · intro f hp hnp
    have hf : f ≠ e.future := fun h => hfresh (h ▸ hp)
    rcases dispatch_framed d e _ f hf (hacc.2.1 f) with ⟨h1, h2, _⟩ | ⟨_, _, h3⟩
    · exact absurd (by simpa only [pending, h1, h2] using hp) hnp
    · exact h3
  · intro f
    by_cases hf : f ∈ futures (evs ++ [(d, e)])
    · rcases hacc'.2.2 f hf with ⟨_, h⟩ | ⟨_, v, h⟩ <;> simp [h]
    · simp [(hacc'.1 f hf).1]

/-- The property C1 on the run start, connect, scan, stop, at the connect future. -/
theorem futures_resolved_exactly_once_witness :
    (futures ([(driver_ok (fun _ => 0), .start 0), (driver_ok (fun _ => 0), .connect 1),
        (driver_ok (fun _ => 0), .scan 2)] ++ [(driver_ok (fun _ => 0), .stop 3)])).Nodup ∧
    (resolutions 1 (run (boot test_config (fun _ => test_args))
      ([(driver_ok (fun _ => 0), .start 0), (driver_ok (fun _ => 0), .connect 1),
        (driver_ok (fun _ => 0), .scan 2)] ++
        [(driver_ok (fun _ => 0), .stop 3)])).trace).length ≤ 1 :=
  ⟨by decide,
    (futures_resolved_exactly_once test_config (fun _ => test_args)
      [(driver_ok (fun _ => 0), .start 0), (driver_ok (fun _ => 0), .connect 1),
        (driver_ok (fun _ => 0), .scan 2)] (driver_ok (fun _ => 0)) (.stop 3)
      (by decide)).2.2.1 1⟩

/-- C2: in every state the worker reaches that holds a pending connect future `f1`, a
connect request `f2` within the length limits makes the handler, after the
get-config call and the driver disconnect, resolve `f1` with `out_err = 1` and empty
`pending_connect`; only after that is `f2` installed as pending (the last thing the
handler does then) or resolved (with `out_err = 1`, the last thing it does then),
whatever the driver answers. -/
theorem second_connect_fails_first (config : aos_wifi_client_config_t)
    (heap : Fut → Args) (evs : List (Driver × Event)) (d : Driver) (f1 f2 : Fut)
    (hpend : (run (boot config heap) evs).ctx.connect_future = some f1)
    (hlen : strlen ((run (boot config heap) evs).heap f2).in_ssid ≤ SSID_SIZE ∧
      strlen ((run (boot config heap) evs).heap f2).in_password ≤ PASSWORD_SIZE) :
    ∃ post, appended (run (boot config heap) evs)
        (_aos_wifi_client_connect_handler d f2 (run (boot config heap) evs)) =
      [.call (.esp_wifi_get_config d.esp_wifi_get_config.1), .call .esp_wifi_disconnect,
        .resolve f1 1, .connect_future none] ++ post ∧
      (∀ x ∈ post.dropLast, ∃ c, x = .call c) ∧
      (post.getLast? = some (.connect_future (some f2)) ∨
        post.getLast? = some (.resolve f2 1)) := by
  have hst := run_pending_connect_phase config heap evs (by simp [hpend])
  generalize run (boot config heap) evs = w at hpend hlen hst
  have hl : ¬ (strlen (w.heap f2).in_ssid > SSID_SIZE ∨
      strlen (w.heap f2).in_password > PASSWORD_SIZE) := by omega
  simp only [_aos_wifi_client_connect_handler, hl, if_false]
  split_ifs <;>
    simp_all [_aos_wifi_client_disconnect, emit, aos_resolve, set_out_err, set_state,
      set_connect_future, appended]

/-- The property C2 after start and an accepted connect (future 1), at a second connect (future 2). -/
theorem second_connect_fails_first_witness :
    ∃ post, appended (run (boot test_config (fun _ => test_args))
          [(driver_ok (fun _ => 0), .start 0), (driver_ok (fun _ => 0), .connect 1)])
        (_aos_wifi_client_connect_handler (driver_ok (fun _ => 0)) 2
          (run (boot test_config (fun _ => test_args))
            [(driver_ok (fun _ => 0), .start 0), (driver_ok (fun _ => 0), .connect 1)])) =
      [.call (.esp_wifi_get_config (driver_ok (fun _ => 0)).esp_wifi_get_config.1),
        .call .esp_wifi_disconnect, .resolve 1 1, .connect_future none] ++ post ∧
      (∀ x ∈ post.dropLast, ∃ c, x = .call c) ∧
      (post.getLast? = some (.connect_future (some 2)) ∨
        post.getLast? = some (.resolve 2 1)) :=
  second_connect_fails_first test_config (fun _ => test_args)
    [(driver_ok (fun _ => 0), .start 0), (driver_ok (fun _ => 0), .connect 1)]
    (driver_ok (fun _ => 0)) 1 2 rfl (by decide)

/-- C3: from a state with phase Disconnected and no pending future (the state after
init and a successful first start), any sequence of connect requests within the
length limits and disconnect requests followed by one stop, with pairwise distinct
futures, processed in order with no driver notification in between, ends with every
connect future of the sequence resolved exactly once, with `out_err = 1`, whatever
the driver answers. -/
theorem queued_connects_all_fail (w0 : World) (reqs : List (Driver × Event))
    (dstop : Driver) (fstop : Fut)
    (h0 : w0.ctx.state = .DISCONNECTED ∧ w0.ctx.connect_future = none ∧
      w0.ctx.scan_future = none)
    (hreq : ∀ p ∈ reqs, is_request w0 p.2)
    (hnd : (futures (reqs ++ [(dstop, .stop fstop)])).Nodup) :
    ∀ p ∈ reqs, ∀ f, p.2 = .connect f →
      resolutions f (appended w0 (run w0 (reqs ++ [(dstop, .stop fstop)]))) = [1] := by
  have hl : (futures reqs).Nodup ∧ fstop ∉ futures reqs := by
    simp only [futures, List.map_append, List.map_cons, List.map_nil] at hnd
    rw [List.nodup_append] at hnd
    exact ⟨hnd.1, fun hmem => hnd.2.2 hmem (List.mem_singleton_self _)⟩
  obtain ⟨ia, ib, _, id', ie, ig⟩ := quiet_run w0 reqs h0 hreq hl.1
  obtain ⟨_, _, _, qd, qe, _, _⟩ := quiet_stop dstop fstop _ ia ib (ie _ hl.2).2
  obtain ⟨happ, _⟩ := appended_trans w0 _ _ id' qd
  intro p hp f hpf
  have hfl : f ∈ futures reqs := by
    have := mem_futures p reqs hp
    rwa [hpf] at this
  have hf2 : f ≠ fstop := fun h => hl.2 (h ▸ hfl)
  rw [run_snoc, happ, resolutions_append, (qe f hf2).2]
  rcases ig p hp f hpf with ⟨h1, h2⟩ | ⟨h1, h2⟩
  · simp [h1, h2]
  · simp [h1, h2]

/-- The property C3 on the sequence of the test: connect, connect, disconnect, connect, stop. -/
theorem queued_connects_all_fail_witness :
    resolutions 1 (appended test_started (run test_started
        ([(driver_ok (fun _ => 0), .connect 1), (driver_ok (fun _ => 0), .connect 2),
          (driver_ok (fun _ => 0), .disconnect 3), (driver_ok (fun _ => 0), .connect 4)] ++
          [(driver_ok (fun _ => 0), .stop 5)]))) = [1] ∧
    resolutions 4 (appended test_started (run test_started
        ([(driver_ok (fun _ => 0), .connect 1), (driver_ok (fun _ => 0), .connect 2),
          (driver_ok (fun _ => 0), .disconnect 3), (driver_ok (fun _ => 0), .connect 4)] ++
          [(driver_ok (fun _ => 0), .stop 5)]))) = [1] :=
  ⟨queued_connects_all_fail test_started
      [(driver_ok (fun _ => 0), .connect 1), (driver_ok (fun _ => 0), .connect 2),
        (driver_ok (fun _ => 0), .disconnect 3), (driver_ok (fun _ => 0), .connect 4)]
      (driver_ok (fun _ => 0)) 5 (by decide) (by decide) (by decide)
      (driver_ok (fun _ => 0), .connect 1) (List.Mem.head _) 1 rfl,
    queued_connects_all_fail test_started
      [(driver_ok (fun _ => 0), .connect 1), (driver_ok (fun _ => 0), .connect 2),
        (driver_ok (fun _ => 0), .disconnect 3), (driver_ok (fun _ => 0), .connect 4)]
      (driver_ok (fun _ => 0)) 5 (by decide) (by decide) (by decide)
      (driver_ok (fun _ => 0), .connect 4)
      (List.Mem.tail _ (List.Mem.tail _ (List.Mem.tail _ (List.Mem.head _)))) 4 rfl⟩

/-- C4: in phase Connected, a connect request whose ssid and password are the strings
the driver's station configuration holds is resolved with `out_err = 0`; the only
driver call is the get-config (no disconnect, set-config or connect call), and the
controller context (phase, both pending slots, both counters) is unchanged. -/
theorem connect_same_credentials (d : Driver) (future : Fut) (w : World)
    (hstate : w.ctx.state = .CONNECTED)
    (hget : d.esp_wifi_get_config.1 = ESP_OK)
    (hssid : c_string (w.heap future).in_ssid =
      field_string d.esp_wifi_get_config.2 0 SSID_SIZE)
    (hpass : c_string (w.heap future).in_password =
      field_string d.esp_wifi_get_config.2 SSID_SIZE PASSWORD_SIZE) :
    _aos_wifi_client_connect_handler d future w =
      { ctx := w.ctx
        heap := Function.update w.heap future { w.heap future with out_err := 0 }
        trace := w.trace ++ [.call (.esp_wifi_get_config ESP_OK), .resolve future 0] } := by
  have h1 : strlen (w.heap future).in_ssid ≤ SSID_SIZE := by
    have := field_string_length d.esp_wifi_get_config.2 0 SSID_SIZE
    rw [← hssid] at this
    simpa [strlen, c_string] using this
  have h2 : strlen (w.heap future).in_password ≤ PASSWORD_SIZE := by
    have := field_string_length d.esp_wifi_get_config.2 SSID_SIZE PASSWORD_SIZE
    rw [← hpass] at this
    simpa [strlen, c_string] using this
  have g1 := (strncmp_field d.esp_wifi_get_config.2 0 SSID_SIZE _ h1).mpr hssid.symm
  have g2 := (strncmp_field d.esp_wifi_get_config.2 SSID_SIZE PASSWORD_SIZE _ h2).mpr hpass.symm
  have hl : ¬ (strlen (w.heap future).in_ssid > SSID_SIZE ∨
      strlen (w.heap future).in_password > PASSWORD_SIZE) := by omega
  simp [_aos_wifi_client_connect_handler, hl, hget, emit, hstate, g1, g2, aos_resolve,
    set_out_err]

/-- The property C4 in the Connected world of the tests, the driver reporting their credentials. -/
theorem connect_same_credentials_witness :
    _aos_wifi_client_connect_handler (driver_ok test_sta) 7 test_connected =
      { ctx := test_connected.ctx
        heap := Function.update test_connected.heap 7
          { test_connected.heap 7 with out_err := 0 }
        trace := test_connected.trace ++
          [.call (.esp_wifi_get_config ESP_OK), .resolve 7 0] } :=
  connect_same_credentials (driver_ok test_sta) 7 test_connected
    (by decide) rfl (by decide) (by decide)

/-- C5: the connect handler rejects a request for its length exactly when the ssid is
longer than the driver's ssid field or the password longer than its password field;
a rejected request is resolved with `out_err = 1`, no driver call is made and the
controller context is unchanged. -/
theorem connect_length_rejection (d : Driver) (future : Fut) (w : World) :
    ((_aos_wifi_client_connect_handler d future w).trace = w.trace ++ [.resolve future 1] ↔
      (strlen (w.heap future).in_ssid > SSID_SIZE ∨
        strlen (w.heap future).in_password > PASSWORD_SIZE)) ∧
    ((strlen (w.heap future).in_ssid > SSID_SIZE ∨
        strlen (w.heap future).in_password > PASSWORD_SIZE) →
      _aos_wifi_client_connect_handler d future w =
        { ctx := w.ctx
          heap := Function.update w.heap future { w.heap future with out_err := 1 }
          trace := w.trace ++ [.resolve future 1] }) := by
  by_cases hlen : strlen (w.heap future).in_ssid > SSID_SIZE ∨
        strlen (w.heap future).in_password > PASSWORD_SIZE
  · simp [_aos_wifi_client_connect_handler, hlen, emit, aos_resolve, set_out_err]
  · simp only [hlen, iff_false, false_imp_iff, and_true]
    simp only [_aos_wifi_client_connect_handler, hlen, if_false]
    cases hc : w.ctx.connect_future <;> split_ifs <;>
      simp [_aos_wifi_client_disconnect, emit, aos_resolve, set_out_err, set_state,
        set_connect_future, hc]

/-- C6: a connect request that passes the length validation and is not the
same-credentials no-op, with the driver's get-config, set-config and connect calls
succeeding, leaves its future as `pending_connect`, phase Connecting and both attempt
counters zero; the handler resolves no future but a connect future that was pending
before, so the request's own future, unless it was that one, is unresolved. -/
theorem connect_accepted (d : Driver) (future : Fut) (w : World)
    (hlen : strlen (w.heap future).in_ssid ≤ SSID_SIZE ∧
      strlen (w.heap future).in_password ≤ PASSWORD_SIZE)
    (hnoop : ¬ (w.ctx.state = .CONNECTED ∧
      c_string (w.heap future).in_ssid = field_string d.esp_wifi_get_config.2 0 SSID_SIZE ∧
      c_string (w.heap future).in_password =
        field_string d.esp_wifi_get_config.2 SSID_SIZE PASSWORD_SIZE))
    (hget : d.esp_wifi_get_config.1 = ESP_OK)
    (hset : d.esp_wifi_set_config = ESP_OK)
    (hconn : d.esp_wifi_connect = ESP_OK) :
    (_aos_wifi_client_connect_handler d future w).ctx =
      { w.ctx with
        connect_future := some future
        state := .CONNECTING
        connection_attempt := 0
        reconnection_attempt := 0 } ∧
    (∀ g v, Effect.resolve g v ∈ appended w (_aos_wifi_client_connect_handler d future w) →
      w.ctx.connect_future = some g ∧ v = 1) ∧
    (w.ctx.connect_future ≠ some future →
      resolutions future (appended w (_aos_wifi_client_connect_handler d future w)) = [] ∧
      ((_aos_wifi_client_connect_handler d future w).heap future).out_err =
        (w.heap future).out_err) := by
  have hl : ¬ (strlen (w.heap future).in_ssid > SSID_SIZE ∨
      strlen (w.heap future).in_password > PASSWORD_SIZE) := by omega
  have hguard : ¬ (w.ctx.state = .CONNECTED ∧
      strncmp (shift d.esp_wifi_get_config.2 0) (cstr (w.heap future).in_ssid) SSID_SIZE = 0 ∧
      strncmp (shift d.esp_wifi_get_config.2 SSID_SIZE) (cstr (w.heap future).in_password)
        PASSWORD_SIZE = 0) := by
    rw [strncmp_field _ _ _ _ hlen.1, strncmp_field _ _ _ _ hlen.2]
    intro h
    exact hnoop ⟨h.1, h.2.1.symm, h.2.2.symm⟩
  cases hc : w.ctx.connect_future with
  | none =>
    simp [_aos_wifi_client_connect_handler, hl, hget, hset, hconn, hguard, appended,
      _aos_wifi_client_disconnect, emit, aos_resolve, set_out_err, set_state,
      set_connect_future, hc, resolutions]
  | some cf =>
    simp [_aos_wifi_client_connect_handler, hl, hget, hset, hconn, hguard, appended,
      _aos_wifi_client_disconnect, emit, aos_resolve, set_out_err, set_state,
      set_connect_future, hc, resolutions]
    intro hne
    simp [hne, Function.update_noteq (Ne.symm hne)]

/-- The property C6 in the Connected world of the tests, the driver reporting an empty configuration. -/
theorem connect_accepted_witness :
    (_aos_wifi_client_connect_handler (driver_ok (fun _ => 0)) 7 test_connected).ctx =
      { test_connected.ctx with
        connect_future := some 7
        state := .CONNECTING
        connection_attempt := 0
        reconnection_attempt := 0 } ∧
    (∀ g v, Effect.resolve g v ∈ appended test_connected
        (_aos_wifi_client_connect_handler (driver_ok (fun _ => 0)) 7 test_connected) →
      test_connected.ctx.connect_future = some g ∧ v = 1) ∧
    (test_connected.ctx.connect_future ≠ some 7 →
      resolutions 7 (appended test_connected
        (_aos_wifi_client_connect_handler (driver_ok (fun _ => 0)) 7 test_connected)) = [] ∧
      ((_aos_wifi_client_connect_handler (driver_ok (fun _ => 0)) 7 test_connected).heap 7).out_err =
        (test_connected.heap 7).out_err) :=
  connect_accepted (driver_ok (fun _ => 0)) 7 test_connected (by decide) (by decide) rfl rfl rfl

/-- C7: when a connect request passes the length validation and the get-config, the
set-config or the connect call the handler makes returns a failure, the handler
leaves phase Disconnected and `pending_connect` empty, and the last thing it does is
to resolve the request's future with `out_err = 1`. -/
theorem connect_driver_failure (d : Driver) (future : Fut) (w : World)
    (hlen : strlen (w.heap future).in_ssid ≤ SSID_SIZE ∧
      strlen (w.heap future).in_password ≤ PASSWORD_SIZE)
    (hfail : ∃ e ∈ appended w (_aos_wifi_client_connect_handler d future w),
      failed_call e = true) :
    (_aos_wifi_client_connect_handler d future w).ctx.state = .DISCONNECTED ∧
    (_aos_wifi_client_connect_handler d future w).ctx.connect_future = none ∧
    (appended w (_aos_wifi_client_connect_handler d future w)).getLast? =
      some (.resolve future 1) := by
  have hl : ¬ (strlen (w.heap future).in_ssid > SSID_SIZE ∨
      strlen (w.heap future).in_password > PASSWORD_SIZE) := by omega
  revert hfail
  simp only [_aos_wifi_client_connect_handler, hl, if_false]
  cases hc : w.ctx.connect_future <;> split_ifs <;>
    simp_all [_aos_wifi_client_disconnect, emit, aos_resolve, set_out_err, set_state,
      set_connect_future, appended, failed_call, update_out_err_in_ssid,
      update_out_err_in_password]

/-- The property C7 in the started world of the tests, the connect call failing. -/
theorem connect_driver_failure_witness :
    (_aos_wifi_client_connect_handler (driver_connect_fails (fun _ => 0)) 7
      test_started).ctx.state = .DISCONNECTED ∧
    (_aos_wifi_client_connect_handler (driver_connect_fails (fun _ => 0)) 7
      test_started).ctx.connect_future = none ∧
    (appended test_started (_aos_wifi_client_connect_handler
      (driver_connect_fails (fun _ => 0)) 7 test_started)).getLast? =
        some (.resolve 7 1) :=
  connect_driver_failure (driver_connect_fails (fun _ => 0)) 7 test_started (by decide)
    ⟨.call (.esp_wifi_connect 1), by decide, rfl⟩

/-- C8: from every state, the disconnect handler issues a driver disconnect, resolves a
pending connect future, if there is one, with `out_err = 1` and empties
`pending_connect`, then resolves the request's own future; it leaves phase
Disconnected and the rest of the context (`pending_scan`, both attempt counters)
unchanged. -/
theorem disconnect_handler_effect (future : Fut) (w : World) :
    (_aos_wifi_client_disconnect_handler future w).trace =
        w.trace ++ [.call .esp_wifi_disconnect] ++
          (match w.ctx.connect_future with
           | some cf => [.resolve cf 1, .connect_future none]
           | none => []) ++
          [.resolve future ((_aos_wifi_client_disconnect_handler future w).heap future).out_err] ∧
    (_aos_wifi_client_disconnect_handler future w).ctx =
      { w.ctx with
        connect_future := none
        state := .DISCONNECTED } := by
  cases h : w.ctx.connect_future <;>
    simp [_aos_wifi_client_disconnect_handler, _aos_wifi_client_disconnect, emit, aos_resolve,
      set_out_err, set_state, set_connect_future, h]

/-- C9 on the code: the worker starts, accepts a connect request (future 1) and is
stopped (future 2).  The stop handler disconnects, resolves the pending connect future
with `out_err = 1`, empties both slots, tears the driver down and resolves its own
future; the phase it leaves is Connecting, the one it found, not Disconnected. -/
theorem stop_keeps_phase :
    test_connecting.ctx.state = .CONNECTING ∧
    test_connecting.ctx.connect_future = some 1 ∧
    appended test_connecting
        (_aos_wifi_client_onstop (driver_ok (fun _ => 0)) 2 test_connecting).1 =
      [.call .esp_wifi_disconnect, .resolve 1 1, .connect_future none,
        .call (.esp_event_handler_instance_unregister .WIFI_EVENT (some 3)),
        .call (.esp_event_handler_instance_unregister .IP_EVENT (some 2)),
        .call .esp_wifi_stop, .call .esp_wifi_deinit,
        .call (.esp_netif_destroy_default_wifi (some 1)), .resolve 2 0] ∧
    (_aos_wifi_client_onstop (driver_ok (fun _ => 0)) 2 test_connecting).1.ctx.connect_future
      = none ∧
    (_aos_wifi_client_onstop (driver_ok (fun _ => 0)) 2 test_connecting).1.ctx.scan_future
      = none ∧
    (_aos_wifi_client_onstop (driver_ok (fun _ => 0)) 2 test_connecting).1.ctx.state
      = .CONNECTING := by
  decide

/-- C10: in phase Connecting, Reconnecting or Connected, the on_connected handler
resolves the pending connect future, if there is one, with `out_err = 0` and empties
`pending_connect`, notifies the observer once, with Reconnected, when the phase was
Reconnecting and not at all otherwise, and resolves the event's own future; it leaves
`reconnection_attempt` zero, `ip_info` the one of the event, phase Connected, and the
rest of the context (`connection_attempt`, `pending_scan`) unchanged. -/
theorem onconnected_handler_effect (future : Fut) (w : World)
    (hs : w.ctx.state ≠ .DISCONNECTED) :
    (_aos_wifi_client_onconnected_handler future w).trace =
        w.trace ++
          (match w.ctx.connect_future with
           | some cf => [.resolve cf 0, .connect_future none]
           | none => []) ++
          (if w.ctx.state = .RECONNECTING then
            [.event_handler w.ctx.config.event_handler .RECONNECTED] else []) ++
          [.resolve future ((_aos_wifi_client_onconnected_handler future w).heap future).out_err] ∧
    (_aos_wifi_client_onconnected_handler future w).ctx =
      { w.ctx with
        connect_future := none
        reconnection_attempt := 0
        ip_info := (w.heap future).ip_info
        state := .CONNECTED } := by
  cases h : w.ctx.connect_future <;> cases hst : w.ctx.state <;>
    simp_all [_aos_wifi_client_onconnected_handler, emit, aos_resolve,
      set_out_err, set_state, set_connect_future, notify, update_out_err_ip_info]

/-- The property C10 in the Connecting world of the tests. -/
theorem onconnected_handler_effect_witness :
    (_aos_wifi_client_onconnected_handler 2 test_connecting).trace =
        test_connecting.trace ++ [.resolve 1 0, .connect_future none] ++ [] ++
          [.resolve 2 0] ∧
    (_aos_wifi_client_onconnected_handler 2 test_connecting).ctx =
      { test_connecting.ctx with
        connect_future := none
        reconnection_attempt := 0
        ip_info := some 1
        state := .CONNECTED } :=
  onconnected_handler_effect 2 test_connecting (by decide)

/-! ## Lemmas on retries and on the scan results -/

theorem translate_loop_outside (rs : List wifi_ap_record_t) :
    ∀ (buf : Nat → aos_wifi_client_scan_result_t) (i j : Nat),
      j < i ∨ i + rs.length ≤ j → translate_loop buf i rs j = buf j := by
  induction rs with
  | nil => intro buf i j _; rfl
  | cons r rest ih =>
    intro buf i j h
    simp only [translate_loop]
    rw [ih]
    · have hji : j ≠ i := by
        simp only [List.length_cons] at h
        omega
      simp [Function.update_noteq hji]
    · simp only [List.length_cons] at h
      omega

/-- A retry of on_disconnected: with a connect pending, the counter within the ceiling
and the reissued connect call succeeding, the handler increments the counter, makes
one connect call and resolves the event's future; nothing else changes. -/
theorem ondisconnected_retry (d : Driver) (g : Fut) (w : World)
    (hs : w.ctx.state ≠ .DISCONNECTED) (hc : w.ctx.connect_future ≠ none)
    (hle : w.ctx.connection_attempt ≤ w.ctx.config.connection_attempts)
    (hok : d.esp_wifi_connect = ESP_OK) :
    dispatch d (.disconnected g) w =
      { ctx := { w.ctx with connection_attempt := incr w.ctx.connection_attempt }
        heap := w.heap
        trace := w.trace ++ [.call (.esp_wifi_connect ESP_OK),
          .resolve g (w.heap g).out_err] } := by
  have h' : ¬ (w.ctx.config.connection_attempts < w.ctx.connection_attempt) := by omega
  cases hst : w.ctx.state
  case DISCONNECTED => exact absurd hst hs
  all_goals
    simp [dispatch, _aos_wifi_client_ondisconnected_handler, emit, aos_resolve, hst, hc, h',
      hok]

/-- An accepted connect request that meets only disconnected notifications, each
reissued connect call succeeding, survives as many notifications as the ceiling plus
one: after `k ≤ connection_attempts + 1` of them the counter is `k`, `k` connect calls
were reissued, and the request is still pending and unresolved. -/
theorem retries_run (w : World) (cf : Fut) (evs : List (Driver × Event))
    (hs : w.ctx.state ≠ .DISCONNECTED) (hc : w.ctx.connect_future = some cf)
    (h0 : w.ctx.connection_attempt = 0)
    (hN : w.ctx.config.connection_attempts < UINT_MAX)
    (hev : ∀ p ∈ evs, p.1.esp_wifi_connect = ESP_OK ∧ ∃ g, p.2 = .disconnected g ∧ g ≠ cf)
    (hlen : evs.length ≤ w.ctx.config.connection_attempts + 1) :
    (run w evs).ctx = { w.ctx with connection_attempt := evs.length } ∧
    (run w evs).trace = w.trace ++ appended w (run w evs) ∧
    connect_calls (appended w (run w evs)) = evs.length ∧
    resolutions cf (appended w (run w evs)) = [] := by
  induction evs using List.reverseRecOn with
  | nil =>
    simp [run, appended, connect_calls, resolutions, ← h0]
  | append_singleton l p ih =>
    obtain ⟨d, e⟩ := p
    have hl : l.length + 1 ≤ w.ctx.config.connection_attempts + 1 := by
      simpa using hlen
    obtain ⟨i1, i2, i3, i4⟩ := ih (fun p hp => hev p (List.mem_append_left _ hp)) (by omega)
    obtain ⟨hok, g, hg, hgc⟩ := hev (d, e) (List.mem_append_right _ (List.mem_singleton_self _))
    simp only at hok hg
    subst hg
    have hstep := ondisconnected_retry d g (run w l) (by rw [i1]; exact hs)
      (by rw [i1]; simp [hc]) (by rw [i1]; simp; omega) hok
    have hincr : incr l.length = l.length + 1 := by
      simp only [incr, UINT_MAX] at hN ⊢
      omega
    generalize appended w (run w l) = A at i2 i3 i4
    rw [run_snoc, hstep]
    refine ⟨?_, ?_, ?_, ?_⟩
    · simp [i1, hincr]
    · simp [appended, i2]
    · simp [appended, i2, connect_calls, is_connect_call] at i3 ⊢
      exact i3
    · simp [appended, i2, resolutions_append, resolutions, hgc, i4]

/-! ## The properties of the notification and scan handlers -/

/-- C11: in phase Disconnected, the on_connected and the on_disconnected handler both
leave the controller context and the futures' payloads as they are and append one
entry to the trace, the resolution of the event's own future: no driver call, no
observer notification, no other resolution. -/
theorem stale_notification_ignored (d : Driver) (future : Fut) (w : World)
    (hs : w.ctx.state = .DISCONNECTED) :
    _aos_wifi_client_onconnected_handler future w =
      { w with trace := w.trace ++ [.resolve future (w.heap future).out_err] } ∧
    _aos_wifi_client_ondisconnected_handler d future w =
      { w with trace := w.trace ++ [.resolve future (w.heap future).out_err] } := by
  simp [_aos_wifi_client_onconnected_handler, _aos_wifi_client_ondisconnected_handler, hs,
    aos_resolve, emit]

/-- The property C11 in the started world of the tests. -/
theorem stale_notification_ignored_witness :
    _aos_wifi_client_onconnected_handler 9 test_started =
      { test_started with trace := test_started.trace ++
          [.resolve 9 (test_started.heap 9).out_err] } ∧
    _aos_wifi_client_ondisconnected_handler (driver_ok (fun _ => 0)) 9 test_started =
      { test_started with trace := test_started.trace ++
          [.resolve 9 (test_started.heap 9).out_err] } :=
  stale_notification_ignored (driver_ok (fun _ => 0)) 9 test_started (by decide)

/-- C12: in a phase other than Disconnected with a connect future `cf` pending,
on_disconnected does the following.  With `connection_attempt` above the configured
ceiling it makes no connect call: it disconnects, resolves `cf` with `out_err = 1`,
empties `pending_connect` and leaves phase Disconnected.  With `connection_attempt`
at most the ceiling (the ceiling itself included) it increments the counter (the C
`++` on an `unsigned int`, which is plus one below `UINT_MAX`) and reissues the
connect call; when the call succeeds nothing else changes (phase and pending future
as before, `cf` not resolved), and when it fails the handler disconnects, resolves
`cf` with `out_err = 1`, empties `pending_connect` and leaves phase Disconnected. -/
theorem ondisconnected_while_connecting (d : Driver) (future cf : Fut) (w : World)
    (hs : w.ctx.state ≠ .DISCONNECTED) (hc : w.ctx.connect_future = some cf) :
    (w.ctx.connection_attempt > w.ctx.config.connection_attempts →
      appended w (_aos_wifi_client_ondisconnected_handler d future w) =
        [.call .esp_wifi_disconnect, .resolve cf 1, .connect_future none,
          .resolve future ((_aos_wifi_client_ondisconnected_handler d future w).heap
            future).out_err] ∧
      (_aos_wifi_client_ondisconnected_handler d future w).ctx =
        { w.ctx with
          connect_future := none
          state := .DISCONNECTED }) ∧
    (w.ctx.connection_attempt ≤ w.ctx.config.connection_attempts →
      d.esp_wifi_connect = ESP_OK →
      _aos_wifi_client_ondisconnected_handler d future w =
        { ctx := { w.ctx with connection_attempt := incr w.ctx.connection_attempt }
          heap := w.heap
          trace := w.trace ++ [.call (.esp_wifi_connect ESP_OK),
            .resolve future (w.heap future).out_err] } ∧
      (cf ≠ future → resolutions cf
        (appended w (_aos_wifi_client_ondisconnected_handler d future w)) = [])) ∧
    (w.ctx.connection_attempt ≤ w.ctx.config.connection_attempts →
      d.esp_wifi_connect ≠ ESP_OK →
      appended w (_aos_wifi_client_ondisconnected_handler d future w) =
        [.call (.esp_wifi_connect d.esp_wifi_connect), .call .esp_wifi_disconnect,
          .resolve cf 1, .connect_future none,
          .resolve future ((_aos_wifi_client_ondisconnected_handler d future w).heap
            future).out_err] ∧
      (_aos_wifi_client_ondisconnected_handler d future w).ctx =
        { w.ctx with
          connection_attempt := incr w.ctx.connection_attempt
          connect_future := none
          state := .DISCONNECTED }) ∧
    (w.ctx.connection_attempt < UINT_MAX →
      incr w.ctx.connection_attempt = w.ctx.connection_attempt + 1) := by
  refine ⟨?_, ?_, ?_, ?_⟩
  · intro h
    cases hst : w.ctx.state
    case DISCONNECTED => exact absurd hst hs
    all_goals
      simp [_aos_wifi_client_ondisconnected_handler, _aos_wifi_client_disconnect, emit,
        aos_resolve, set_out_err, set_state, set_connect_future, appended, hst, hc, h]
  · intro h hok
    have h' : ¬ (w.ctx.config.connection_attempts < w.ctx.connection_attempt) := by omega
    cases hst : w.ctx.state
    case DISCONNECTED => exact absurd hst hs
    all_goals
      simp [_aos_wifi_client_ondisconnected_handler, _aos_wifi_client_disconnect, emit,
        aos_resolve, set_out_err, set_state, set_connect_future, appended, resolutions,
        hst, hc, h', hok]
      intro hne heq
      exact hne heq.symm
  · intro h hko
    have h' : ¬ (w.ctx.config.connection_attempts < w.ctx.connection_attempt) := by omega
    cases hst : w.ctx.state
    case DISCONNECTED => exact absurd hst hs
    all_goals
      simp [_aos_wifi_client_ondisconnected_handler, _aos_wifi_client_disconnect, emit,
        aos_resolve, set_out_err, set_state, set_connect_future, appended, hst, hc, h', hko]
  · intro h
    simp only [incr, UINT_MAX] at h ⊢
    omega

/-- The property C12 in the Connecting world of the tests (counter 0, ceiling
`UINT_MAX`), the pending future being future 1. -/
theorem ondisconnected_while_connecting_witness :
    _aos_wifi_client_ondisconnected_handler (driver_ok (fun _ => 0)) 2 test_connecting =
      { ctx := { test_connecting.ctx with connection_attempt := 1 }
        heap := test_connecting.heap
        trace := test_connecting.trace ++ [.call (.esp_wifi_connect ESP_OK),
          .resolve 2 0] } :=
  ((ondisconnected_while_connecting (driver_ok (fun _ => 0)) 2 1 test_connecting
    (by decide) (by decide)).2.1 (by decide) rfl).1

/-- C13 on the code: let a connect request `cf` be accepted (the connect handler made
the first `esp_wifi_connect` call and left the counter at 0) with the ceiling
`connection_attempts = N < UINT_MAX`, and let only disconnected notifications follow,
every reissued connect call succeeding.  After `N + 1` notifications the handler has
reissued `N + 1` connect calls and the request is still pending and unresolved; the
notification after those is the one that gives up: no connect call, `cf` resolved
with `out_err = 1`, phase Disconnected.  With the first call that is `N + 2` connect
calls for the request, not `N`. -/
theorem connect_given_up_after (w : World) (cf : Fut) (evs : List (Driver × Event))
    (d : Driver) (f : Fut)
    (hs : w.ctx.state ≠ .DISCONNECTED) (hc : w.ctx.connect_future = some cf)
    (h0 : w.ctx.connection_attempt = 0)
    (hN : w.ctx.config.connection_attempts < UINT_MAX)
    (hev : ∀ p ∈ evs, p.1.esp_wifi_connect = ESP_OK ∧ ∃ g, p.2 = .disconnected g ∧ g ≠ cf)
    (hlen : evs.length = w.ctx.config.connection_attempts + 1) :
    connect_calls (appended w (run w evs)) = w.ctx.config.connection_attempts + 1 ∧
    (run w evs).ctx.connect_future = some cf ∧
    (run w evs).ctx.state = w.ctx.state ∧
    resolutions cf (appended w (run w evs)) = [] ∧
    (dispatch d (.disconnected f) (run w evs)).ctx.state = .DISCONNECTED ∧
    (dispatch d (.disconnected f) (run w evs)).ctx.connect_future = none ∧
    appended (run w evs) (dispatch d (.disconnected f) (run w evs)) =
      [.call .esp_wifi_disconnect, .resolve cf 1, .connect_future none,
        .resolve f ((dispatch d (.disconnected f) (run w evs)).heap f).out_err] := by
  obtain ⟨i1, _, i3, i4⟩ := retries_run w cf evs hs hc h0 hN hev (by omega)
  have hgt : (run w evs).ctx.connection_attempt >
      (run w evs).ctx.config.connection_attempts := by
    rw [i1]; simp; omega
  have hc' : (run w evs).ctx.connect_future = some cf := by rw [i1]; exact hc
  have hs' : (run w evs).ctx.state = w.ctx.state := by rw [i1]
  refine ⟨by rw [i3, hlen], hc', hs', i4, ?_⟩
  generalize run w evs = w1 at hgt hc' hs'
  rw [← hs'] at hs
  cases hst : w1.ctx.state
  case DISCONNECTED => exact absurd hst hs
  all_goals
    simp [dispatch, _aos_wifi_client_ondisconnected_handler, _aos_wifi_client_disconnect,
      emit, aos_resolve, set_out_err, set_state, set_connect_future, appended, hst, hc',
      hgt]

/-- The property on the code with the ceiling `connection_attempts = 1`: after start
and an accepted connect (future 1), two disconnected notifications (futures 2, 3)
reissue the connect call and leave the request pending; the third (future 4) gives
up.  The whole trace then holds three `esp_wifi_connect` calls for the request, and
after the first of them, the single attempt the ceiling announces, the request was
not given up. -/
theorem connect_given_up_after_witness :
    (connect_calls (appended (connecting_with 1) (run (connecting_with 1)
        [(driver_ok (fun _ => 0), .disconnected 2),
          (driver_ok (fun _ => 0), .disconnected 3)])) = 1 + 1 ∧
      (run (connecting_with 1)
        [(driver_ok (fun _ => 0), .disconnected 2),
          (driver_ok (fun _ => 0), .disconnected 3)]).ctx.connect_future = some 1 ∧
      (run (connecting_with 1)
        [(driver_ok (fun _ => 0), .disconnected 2),
          (driver_ok (fun _ => 0), .disconnected 3)]).ctx.state = .CONNECTING ∧
      resolutions 1 (appended (connecting_with 1) (run (connecting_with 1)
        [(driver_ok (fun _ => 0), .disconnected 2),
          (driver_ok (fun _ => 0), .disconnected 3)])) = [] ∧
      (dispatch (driver_ok (fun _ => 0)) (.disconnected 4) (run (connecting_with 1)
        [(driver_ok (fun _ => 0), .disconnected 2),
          (driver_ok (fun _ => 0), .disconnected 3)])).ctx.state = .DISCONNECTED ∧
      (dispatch (driver_ok (fun _ => 0)) (.disconnected 4) (run (connecting_with 1)
        [(driver_ok (fun _ => 0), .disconnected 2),
          (driver_ok (fun _ => 0), .disconnected 3)])).ctx.connect_future = none ∧
      appended (run (connecting_with 1)
          [(driver_ok (fun _ => 0), .disconnected 2),
            (driver_ok (fun _ => 0), .disconnected 3)])
        (dispatch (driver_ok (fun _ => 0)) (.disconnected 4) (run (connecting_with 1)
          [(driver_ok (fun _ => 0), .disconnected 2),
            (driver_ok (fun _ => 0), .disconnected 3)])) =
        [.call .esp_wifi_disconnect, .resolve 1 1, .connect_future none, .resolve 4 0]) ∧
    connect_calls (run (connecting_with 1)
      [(driver_ok (fun _ => 0), .disconnected 2), (driver_ok (fun _ => 0), .disconnected 3),
        (driver_ok (fun _ => 0), .disconnected 4)]).trace = 3 ∧
    connect_calls (connecting_with 1).trace = 1 ∧
    (connecting_with 1).ctx.connect_future = some 1 ∧
    resolutions 1 (connecting_with 1).trace = [] :=
  ⟨connect_given_up_after (connecting_with 1) 1
      [(driver_ok (fun _ => 0), .disconnected 2), (driver_ok (fun _ => 0), .disconnected 3)]
      (driver_ok (fun _ => 0)) 4 (by decide) (by decide) (by decide) (by decide)
      (by
        intro p hp
        simp only [List.mem_cons, List.mem_singleton, List.not_mem_nil, or_false] at hp
        rcases hp with rfl | rfl
        · exact ⟨rfl, 2, rfl, by decide⟩
        · exact ⟨rfl, 3, rfl, by decide⟩)
      (by decide),
    by decide, by decide, by decide, by decide⟩

/-- C14: in a phase other than Disconnected with no connect pending, on_disconnected
does the following.  With `reconnection_attempt` at most the configured ceiling and
the reissued connect call succeeding, it increments the counter (the C `++` on an
`unsigned int`, which is plus one below `UINT_MAX`), leaves phase Reconnecting and
notifies the observer once, with Reconnecting.  With `reconnection_attempt` above the
ceiling it makes no connect call (it disconnects), leaves phase Disconnected and
notifies the observer once, with Disconnected. -/
theorem ondisconnected_while_connected (d : Driver) (future : Fut) (w : World)
    (hs : w.ctx.state ≠ .DISCONNECTED) (hc : w.ctx.connect_future = none) :
    (w.ctx.reconnection_attempt ≤ w.ctx.config.reconnection_attempts →
      d.esp_wifi_connect = ESP_OK →
      _aos_wifi_client_ondisconnected_handler d future w =
        { ctx := { w.ctx with
            reconnection_attempt := incr w.ctx.reconnection_attempt
            state := .RECONNECTING }
          heap := w.heap
          trace := w.trace ++ [.call (.esp_wifi_connect ESP_OK),
            .event_handler w.ctx.config.event_handler .RECONNECTING,
            .resolve future (w.heap future).out_err] }) ∧
    (w.ctx.reconnection_attempt > w.ctx.config.reconnection_attempts →
      _aos_wifi_client_ondisconnected_handler d future w =
        { ctx := { w.ctx with state := .DISCONNECTED }
          heap := w.heap
          trace := w.trace ++ [.call .esp_wifi_disconnect,
            .event_handler w.ctx.config.event_handler .DISCONNECTED,
            .resolve future (w.heap future).out_err] }) ∧
    (w.ctx.reconnection_attempt < UINT_MAX →
      incr w.ctx.reconnection_attempt = w.ctx.reconnection_attempt + 1) := by
  refine ⟨?_, ?_, ?_⟩
  · intro h hok
    have h' : ¬ (w.ctx.config.reconnection_attempts < w.ctx.reconnection_attempt) := by omega
    cases hst : w.ctx.state
    case DISCONNECTED => exact absurd hst hs
    all_goals
      simp [_aos_wifi_client_ondisconnected_handler, _aos_wifi_client_disconnect, emit,
        aos_resolve, set_out_err, set_state, set_connect_future, notify, hst, hc, h', hok]
  · intro h
    cases hst : w.ctx.state
    case DISCONNECTED => exact absurd hst hs
    all_goals
      simp [_aos_wifi_client_ondisconnected_handler, _aos_wifi_client_disconnect, emit,
        aos_resolve, set_out_err, set_state, set_connect_future, notify, hst, hc, h]
  · intro h
    simp only [incr, UINT_MAX] at h ⊢
    omega

/-- The property C14 in the Connected world of the tests (counter 0, ceiling
`UINT_MAX`). -/
theorem ondisconnected_while_connected_witness :
    _aos_wifi_client_ondisconnected_handler (driver_ok (fun _ => 0)) 3 test_connected =
      { ctx := { test_connected.ctx with
          reconnection_attempt := 1
          state := .RECONNECTING }
        heap := test_connected.heap
        trace := test_connected.trace ++ [.call (.esp_wifi_connect ESP_OK),
          .event_handler 1 .RECONNECTING, .resolve 3 0] } :=
  (ondisconnected_while_connected (driver_ok (fun _ => 0)) 3 test_connected
    (by decide) (by decide)).1 (by decide) rfl

/-- C15: with a scan future `s1` pending, a scan request `s2` makes the handler stop
the driver scan, drain the driver's result buffer, resolve `s1` with `out_err = 1` and
empty `pending_scan`; only then does it issue the new scan-start.  Afterwards
`pending_scan` is `s2` when the scan-start succeeded and empty when it failed (`s2` is
then resolved with `out_err = 1`): it is not `s1`. -/
theorem scan_supersedes_pending (d : Driver) (s1 s2 : Fut) (w : World)
    (hp : w.ctx.scan_future = some s1) :
    appended w (_aos_wifi_client_scan_handler d s2 w) =
      [.call .esp_wifi_scan_stop,
        .call (.esp_wifi_scan_get_ap_records 0 (d.esp_wifi_scan_get_ap_records 0).1),
        .resolve s1 1, .scan_future none,
        .call (.esp_wifi_scan_start d.esp_wifi_scan_start)] ++
      (if d.esp_wifi_scan_start = ESP_OK then [.scan_future (some s2)]
        else [.resolve s2 1]) ∧
    (_aos_wifi_client_scan_handler d s2 w).ctx.scan_future =
      (if d.esp_wifi_scan_start = ESP_OK then some s2 else none) ∧
    (s1 ≠ s2 → (_aos_wifi_client_scan_handler d s2 w).ctx.scan_future ≠ some s1) := by
  by_cases hok : d.esp_wifi_scan_start = ESP_OK
  · simp [_aos_wifi_client_scan_handler, _aos_wifi_client_stopcurrentscan, emit,
      aos_resolve, set_out_err, set_scan_future, appended, hp, hok]
    intro hne heq
    exact hne heq.symm
  · simp [_aos_wifi_client_scan_handler, _aos_wifi_client_stopcurrentscan, emit,
      aos_resolve, set_out_err, set_scan_future, appended, hp, hok]

/-- The property C15 in the scanning world of the tests, at a second scan (future 2). -/
theorem scan_supersedes_pending_witness :
    appended test_scanning
        (_aos_wifi_client_scan_handler (driver_ok (fun _ => 0)) 2 test_scanning) =
      [.call .esp_wifi_scan_stop, .call (.esp_wifi_scan_get_ap_records 0 ESP_OK),
        .resolve 1 1, .scan_future none, .call (.esp_wifi_scan_start ESP_OK)] ++
      [.scan_future (some 2)] ∧
    (_aos_wifi_client_scan_handler (driver_ok (fun _ => 0)) 2 test_scanning).ctx.scan_future =
      some 2 ∧
    ((1 : Fut) ≠ 2 →
      (_aos_wifi_client_scan_handler (driver_ok (fun _ => 0)) 2 test_scanning).ctx.scan_future
        ≠ some 1) :=
  scan_supersedes_pending (driver_ok (fun _ => 0)) 1 2 test_scanning (by decide)

/-- C16: from every state, a scan request whose scan-start call fails is resolved with
`out_err = 1` (the last thing the handler does) and `pending_scan` is empty afterwards;
one whose scan-start call succeeds is stored as `pending_scan`, and the handler does
not resolve it (unless it was the scan future pending before).  In both cases the rest
of the context (phase, `pending_connect`, both attempt counters) is unchanged. -/
theorem scan_handler_effect (d : Driver) (future : Fut) (w : World) :
    (d.esp_wifi_scan_start ≠ ESP_OK →
      (appended w (_aos_wifi_client_scan_handler d future w)).getLast? =
        some (.resolve future 1) ∧
      (_aos_wifi_client_scan_handler d future w).ctx =
        { w.ctx with scan_future := none }) ∧
    (d.esp_wifi_scan_start = ESP_OK →
      (_aos_wifi_client_scan_handler d future w).ctx =
        { w.ctx with scan_future := some future } ∧
      (w.ctx.scan_future ≠ some future →
        resolutions future (appended w (_aos_wifi_client_scan_handler d future w)) = [] ∧
        ((_aos_wifi_client_scan_handler d future w).heap future).out_err =
          (w.heap future).out_err)) := by
  constructor
  · intro hko
    cases hp : w.ctx.scan_future <;>
      simp [_aos_wifi_client_scan_handler, _aos_wifi_client_stopcurrentscan, emit,
        aos_resolve, set_out_err, set_scan_future, appended, hp, hko]
    rw [← hp]
  · intro hok
    cases hp : w.ctx.scan_future with
    | none =>
      simp [_aos_wifi_client_scan_handler, _aos_wifi_client_stopcurrentscan, emit,
        aos_resolve, set_out_err, set_scan_future, appended, hp, hok, resolutions]
    | some sf =>
      simp [_aos_wifi_client_scan_handler, _aos_wifi_client_stopcurrentscan, emit,
        aos_resolve, set_out_err, set_scan_future, appended, hp, hok, resolutions]
      intro hne
      simp [hne, Function.update_noteq (Ne.symm hne)]

/-- C17: with a scan future `sf` pending, on_scan_done frees the scratch buffer,
resolves the event's future and `sf`, and empties `pending_scan` on every branch, the
rest of the context (phase, `pending_connect`, counters) unchanged.  When the scratch
allocation fails `sf` is resolved with `out_err = 1`, when the driver's retrieval
fails with `out_err = 2`, and in both cases nothing else of any payload is written
(result buffer and `out_results_count` untouched); on success `sf` is resolved with
`out_err = 0`, `out_results_count` is the number of records the driver returned and
the result buffer holds their translation. -/
theorem onscandone_pending (d : Driver) (future sf : Fut) (w : World)
    (hp : w.ctx.scan_future = some sf) :
    (_aos_wifi_client_onscandone_handler d future w).ctx =
      { w.ctx with scan_future := none } ∧
    (d.calloc ((w.heap sf).in_results_size % 2 ^ 16) = false →
      (_aos_wifi_client_onscandone_handler d future w).heap =
        Function.update w.heap sf { w.heap sf with out_err := 1 } ∧
      appended w (_aos_wifi_client_onscandone_handler d future w) =
        [.call (.calloc ((w.heap sf).in_results_size % 2 ^ 16) false), .call .free,
          .resolve future
            ((_aos_wifi_client_onscandone_handler d future w).heap future).out_err,
          .resolve sf 1, .scan_future none]) ∧
    (d.calloc ((w.heap sf).in_results_size % 2 ^ 16) = true →
      (d.esp_wifi_scan_get_ap_records ((w.heap sf).in_results_size % 2 ^ 16)).1 ≠ ESP_OK →
      (_aos_wifi_client_onscandone_handler d future w).heap =
        Function.update w.heap sf { w.heap sf with out_err := 2 } ∧
      appended w (_aos_wifi_client_onscandone_handler d future w) =
        [.call (.calloc ((w.heap sf).in_results_size % 2 ^ 16) true),
          .call (.esp_wifi_scan_get_ap_records ((w.heap sf).in_results_size % 2 ^ 16)
            (d.esp_wifi_scan_get_ap_records ((w.heap sf).in_results_size % 2 ^ 16)).1),
          .call .free,
          .resolve future
            ((_aos_wifi_client_onscandone_handler d future w).heap future).out_err,
          .resolve sf 2, .scan_future none]) ∧
    (d.calloc ((w.heap sf).in_results_size % 2 ^ 16) = true →
      (d.esp_wifi_scan_get_ap_records ((w.heap sf).in_results_size % 2 ^ 16)).1 = ESP_OK →
      (_aos_wifi_client_onscandone_handler d future w).heap =
        Function.update w.heap sf
          { w.heap sf with
            in_results := translate_loop (w.heap sf).in_results 0
              (d.esp_wifi_scan_get_ap_records ((w.heap sf).in_results_size % 2 ^ 16)).2
            out_results_count :=
              (d.esp_wifi_scan_get_ap_records
                ((w.heap sf).in_results_size % 2 ^ 16)).2.length
            out_err := 0 } ∧
      appended w (_aos_wifi_client_onscandone_handler d future w) =
        [.call (.calloc ((w.heap sf).in_results_size % 2 ^ 16) true),
          .call (.esp_wifi_scan_get_ap_records ((w.heap sf).in_results_size % 2 ^ 16)
            ESP_OK),
          .call .free,
          .resolve future
            ((_aos_wifi_client_onscandone_handler d future w).heap future).out_err,
          .resolve sf 0, .scan_future none]) := by
  refine ⟨?_, ?_, ?_, ?_⟩
  · simp only [_aos_wifi_client_onscandone_handler, hp]
    split_ifs <;>
      simp [emit, aos_resolve, set_out_err, set_scan_future, set_in_results,
        set_out_results_count]
  · simp only [_aos_wifi_client_onscandone_handler, hp]
    generalize (w.heap sf).in_results_size % 2 ^ 16 = n
    intro h1
    simp [h1, emit, aos_resolve, set_out_err, set_scan_future, appended]
  · simp only [_aos_wifi_client_onscandone_handler, hp]
    generalize (w.heap sf).in_results_size % 2 ^ 16 = n
    intro h1 h2
    simp [h1, h2, emit, aos_resolve, set_out_err, set_scan_future, appended]
  · simp only [_aos_wifi_client_onscandone_handler, hp]
    generalize (w.heap sf).in_results_size % 2 ^ 16 = n
    intro h1 h2
    simp [h1, h2, emit, aos_resolve, set_out_err, set_scan_future, appended,
      set_in_results, set_out_results_count]

/-- The property C17 in the scanning world of the tests, the driver returning no
record. -/
theorem onscandone_pending_witness :
    (_aos_wifi_client_onscandone_handler (driver_ok (fun _ => 0)) 2 test_scanning).ctx =
      { test_scanning.ctx with scan_future := none } ∧
    appended test_scanning
        (_aos_wifi_client_onscandone_handler (driver_ok (fun _ => 0)) 2 test_scanning) =
      [.call (.calloc ((test_scanning.heap 1).in_results_size % 2 ^ 16) true),
        .call (.esp_wifi_scan_get_ap_records ((test_scanning.heap 1).in_results_size % 2 ^ 16)
          ESP_OK),
        .call .free,
        .resolve 2 ((_aos_wifi_client_onscandone_handler (driver_ok (fun _ => 0)) 2
          test_scanning).heap 2).out_err,
        .resolve 1 0, .scan_future none] :=
  ⟨(onscandone_pending (driver_ok (fun _ => 0)) 2 1 test_scanning (by decide)).1,
    ((onscandone_pending (driver_ok (fun _ => 0)) 2 1 test_scanning (by decide)).2.2.2
      rfl rfl).2⟩

/-- C18 on the code: the worker starts and accepts a scan request (future 1, capacity
10); at the scan-done notification (future 2) the scratch allocation succeeds and the
driver's record retrieval fails.  The scan future is resolved with `out_err = 2`, not
1. -/
theorem scan_retrieval_failure_out_err :
    test_scanning.ctx.scan_future = some 1 ∧
    appended test_scanning
        (_aos_wifi_client_onscandone_handler driver_records_fail 2 test_scanning) =
      [.call (.calloc 10 true), .call (.esp_wifi_scan_get_ap_records 10 1), .call .free,
        .resolve 2 0, .resolve 1 2, .scan_future none] ∧
    ((_aos_wifi_client_onscandone_handler driver_records_fail 2 test_scanning).heap 1).out_err
      = 2 := by
  decide

/-- C19: with a scan future pending whose capacity `in_results_size` is any natural
number (the handler passes it to the driver truncated to 16 bits), a successful
on_scan_done to which the driver returned no more records than the count it was given
writes `out_results_count ≤ in_results_size` and leaves every result-buffer entry with
index `≥ in_results_size` as it was; no other payload is written to. -/
theorem onscandone_within_capacity (d : Driver) (future sf : Fut) (w : World)
    (hp : w.ctx.scan_future = some sf)
    (halloc : d.calloc ((w.heap sf).in_results_size % 2 ^ 16) = true)
    (hok : (d.esp_wifi_scan_get_ap_records ((w.heap sf).in_results_size % 2 ^ 16)).1 = ESP_OK)
    (hcount : (d.esp_wifi_scan_get_ap_records ((w.heap sf).in_results_size % 2 ^ 16)).2.length
      ≤ (w.heap sf).in_results_size % 2 ^ 16) :
    ((_aos_wifi_client_onscandone_handler d future w).heap sf).out_results_count ≤
      (w.heap sf).in_results_size ∧
    (∀ i, (w.heap sf).in_results_size ≤ i →
      ((_aos_wifi_client_onscandone_handler d future w).heap sf).in_results i =
        (w.heap sf).in_results i) ∧
    (∀ g, g ≠ sf → (_aos_wifi_client_onscandone_handler d future w).heap g = w.heap g) := by
  have hle : (w.heap sf).in_results_size % 2 ^ 16 ≤ (w.heap sf).in_results_size :=
    Nat.mod_le _ _
  revert halloc hok hcount hle
  simp only [_aos_wifi_client_onscandone_handler, hp]
  generalize (w.heap sf).in_results_size % 2 ^ 16 = n
  intro h1 h2 h3 h4
  simp only [h1, h2, emit, aos_resolve, set_out_err, set_scan_future, set_in_results,
    set_out_results_count]
  refine ⟨?_, ?_, ?_⟩
  · simp
    omega
  · intro i hi
    simp
    apply translate_loop_outside
    right
    omega
  · intro g hg
    simp [Function.update_noteq hg]

/-- The property C19 in the scanning world of the tests (capacity 10), the driver
returning two records. -/
theorem onscandone_within_capacity_witness :
    ((_aos_wifi_client_onscandone_handler
      (driver_records [⟨[65], -50, 0⟩, ⟨[66], -70, 3⟩]) 2 test_scanning).heap 1).out_results_count
      ≤ (test_scanning.heap 1).in_results_size :=
  (onscandone_within_capacity (driver_records [⟨[65], -50, 0⟩, ⟨[66], -70, 3⟩]) 2 1
    test_scanning (by decide) rfl rfl (by decide)).1

/-- C20 on the code: a record with RSSI -128 is given the strength -1/127, below 0, and
a record with RSSI 1 the strength 128/127, above 1. -/
theorem strength_out_of_range :
    (translate { ssid := [], rssi := -128, authmode := 0 }).strength = -1 / 127 ∧
    (translate { ssid := [], rssi := -128, authmode := 0 }).strength < 0 ∧
    (translate { ssid := [], rssi := 1, authmode := 0 }).strength = 128 / 127 ∧
    1 < (translate { ssid := [], rssi := 1, authmode := 0 }).strength := by
  simp only [translate, INT8_MAX]
  norm_num

/-! ## The properties of start, initialisation, the counters and the observer -/

/-- C21 on the code: a start future allocated with `out_err = 5` and a driver whose
every call succeeds.  The handler returns 0 and resolves the future without writing
`out_err`: the caller reads 5, not 0. -/
theorem start_success_keeps_out_err :
    (_aos_wifi_client_onstart (driver_ok (fun _ => 0)) 0 test_boot_out_err).2 = 0 ∧
    resolutions 0 (appended test_boot_out_err
      (_aos_wifi_client_onstart (driver_ok (fun _ => 0)) 0 test_boot_out_err).1) = [5] ∧
    ((_aos_wifi_client_onstart (driver_ok (fun _ => 0)) 0 test_boot_out_err).1.heap 0).out_err
      = 5 := by
  decide

/-- C22 on the code: the worker starts, accepts a connect request (phase Connecting),
is stopped and started again, every driver call succeeding.  The second start
returns 0 and the phase it leaves is Connecting, the one the stop left behind, not
Disconnected. -/
theorem restart_keeps_phase :
    test_stopped.ctx.state = .CONNECTING ∧
    (_aos_wifi_client_onstart (driver_ok (fun _ => 0)) 3 test_stopped).2 = 0 ∧
    resolutions 3 (appended test_stopped
      (_aos_wifi_client_onstart (driver_ok (fun _ => 0)) 3 test_stopped).1) = [0] ∧
    (_aos_wifi_client_onstart (driver_ok (fun _ => 0)) 3 test_stopped).1.ctx.state
      = .CONNECTING := by
  decide

/-- C23 as stated fails: when the WiFi-event registration fails, the start handler
returns 1 and the IP-event subscription it made just before is still registered. -/
theorem start_failure_leaves_subscription :
    (_aos_wifi_client_onstart driver_register_wifi_fails 0 test_boot).2 = 1 ∧
    subscriptions (appended test_boot
      (_aos_wifi_client_onstart driver_register_wifi_fails 0 test_boot).1) = [.IP_EVENT] ∧
    (_aos_wifi_client_onstart driver_register_wifi_fails 0 test_boot).1.ctx.ip_handler_instance
      = some 2 := by
  decide

/-- C23 amended: a start that fails before the WiFi-event registration is attempted
(at interface creation, radio init, set mode, set power-save, radio start or the
IP-event registration) leaves no event subscription registered. -/
theorem start_failure_no_subscription (d : Driver) (future : Fut) (w : World)
    (hfail : (_aos_wifi_client_onstart d future w).2 ≠ 0)
    (hwifi : ∀ r, Effect.call (.esp_event_handler_instance_register .WIFI_EVENT r) ∉
      appended w (_aos_wifi_client_onstart d future w).1) :
    subscriptions (appended w (_aos_wifi_client_onstart d future w).1) = [] := by
  revert hfail hwifi
  by_cases h0 : d.esp_netif_create_default_wifi_sta = none
  · simp [_aos_wifi_client_onstart, h0, emit, aos_resolve, set_out_err, appended,
      subscriptions, subscribe_step]
  by_cases h1 : d.esp_wifi_init = ESP_OK
  swap
  · simp [_aos_wifi_client_onstart, h0, h1, emit, aos_resolve, set_out_err, appended,
      subscriptions, subscribe_step]
  by_cases h2 : d.esp_wifi_set_mode = ESP_OK
  swap
  · simp [_aos_wifi_client_onstart, h0, h1, h2, emit, aos_resolve, set_out_err, appended,
      subscriptions, subscribe_step]
  by_cases h3 : d.esp_wifi_set_ps = ESP_OK
  swap
  · simp [_aos_wifi_client_onstart, h0, h1, h2, h3, emit, aos_resolve, set_out_err,
      appended, subscriptions, subscribe_step]
  by_cases h4 : d.esp_wifi_start = ESP_OK
  swap
  · simp [_aos_wifi_client_onstart, h0, h1, h2, h3, h4, emit, aos_resolve, set_out_err,
      appended, subscriptions, subscribe_step]
  by_cases h5 : d.register_ip.1 = ESP_OK
  swap
  · simp [_aos_wifi_client_onstart, h0, h1, h2, h3, h4, h5, emit, aos_resolve, set_out_err,
      appended, subscriptions, subscribe_step]
  by_cases h6 : d.register_wifi.1 = ESP_OK
  swap
  · simp [_aos_wifi_client_onstart, h0, h1, h2, h3, h4, h5, h6, emit, aos_resolve,
      set_out_err, appended, subscriptions, subscribe_step]
  · simp [_aos_wifi_client_onstart, h0, h1, h2, h3, h4, h5, h6, emit, aos_resolve,
      set_out_err, appended, subscriptions, subscribe_step]

/-- The amended C23 at a start whose IP-event registration fails. -/
theorem start_failure_no_subscription_witness :
    subscriptions (appended test_boot
      (_aos_wifi_client_onstart driver_register_ip_fails 0 test_boot).1) = [] :=
  start_failure_no_subscription driver_register_ip_fails 0 test_boot (by decide)
    (fun r h => by
      have ht : appended test_boot
          (_aos_wifi_client_onstart driver_register_ip_fails 0 test_boot).1 =
          [.call (.esp_netif_create_default_wifi_sta (some 1)), .call (.esp_wifi_init 0),
            .call (.esp_wifi_set_mode 0), .call (.esp_wifi_set_ps 0),
            .call (.esp_wifi_start 0),
            .call (.esp_event_handler_instance_register .IP_EVENT 1), .resolve 0 1] := by
        decide
      rw [ht] at h
      simp at h)

/-- The start handler writes neither the configuration nor the attempt counters. -/
theorem onstart_config (d : Driver) (f : Fut) (w : World) :
    (_aos_wifi_client_onstart d f w).1.ctx.config = w.ctx.config ∧
    (_aos_wifi_client_onstart d f w).1.ctx.connection_attempt = w.ctx.connection_attempt ∧
    (_aos_wifi_client_onstart d f w).1.ctx.reconnection_attempt =
      w.ctx.reconnection_attempt := by
  by_cases h0 : d.esp_netif_create_default_wifi_sta = none
  · simp [_aos_wifi_client_onstart, h0, emit, aos_resolve, set_out_err]
  by_cases h1 : d.esp_wifi_init = ESP_OK
  swap
  · simp [_aos_wifi_client_onstart, h0, h1, emit, aos_resolve, set_out_err]
  by_cases h2 : d.esp_wifi_set_mode = ESP_OK
  swap
  · simp [_aos_wifi_client_onstart, h0, h1, h2, emit, aos_resolve, set_out_err]
  by_cases h3 : d.esp_wifi_set_ps = ESP_OK
  swap
  · simp [_aos_wifi_client_onstart, h0, h1, h2, h3, emit, aos_resolve, set_out_err]
  by_cases h4 : d.esp_wifi_start = ESP_OK
  swap
  · simp [_aos_wifi_client_onstart, h0, h1, h2, h3, h4, emit, aos_resolve, set_out_err]
  by_cases h5 : d.register_ip.1 = ESP_OK
  swap
  · simp [_aos_wifi_client_onstart, h0, h1, h2, h3, h4, h5, emit, aos_resolve, set_out_err]
  by_cases h6 : d.register_wifi.1 = ESP_OK
  swap
  · simp [_aos_wifi_client_onstart, h0, h1, h2, h3, h4, h5, h6, emit, aos_resolve,
      set_out_err]
  · simp [_aos_wifi_client_onstart, h0, h1, h2, h3, h4, h5, h6, emit, aos_resolve,
      set_out_err]

/-- No handler writes the configuration. -/
theorem dispatch_config (d : Driver) (e : Event) (w : World) :
    (dispatch d e w).ctx.config = w.ctx.config := by
  cases e with
  | start f => exact (onstart_config d f w).1
  | stop f =>
    cases hs : w.ctx.scan_future <;> cases hc : w.ctx.connect_future <;>
    simp [dispatch, _aos_wifi_client_onstop, _aos_wifi_client_stopcurrentscan,
      _aos_wifi_client_disconnect, emit, aos_resolve, set_out_err, set_connect_future,
      set_scan_future, hs, hc]
  | connect f =>
    simp only [dispatch, _aos_wifi_client_connect_handler]
    cases hc : w.ctx.connect_future <;> split_ifs <;>
    simp [_aos_wifi_client_disconnect, emit, aos_resolve, set_out_err, set_state,
      set_connect_future, hc]
  | disconnect f =>
    cases hc : w.ctx.connect_future <;>
    simp [dispatch, _aos_wifi_client_disconnect_handler,
      _aos_wifi_client_disconnect, emit, aos_resolve, set_out_err, set_connect_future,
      set_state, hc]
  | scan f =>
    simp only [dispatch, _aos_wifi_client_scan_handler]
    cases hs : w.ctx.scan_future <;> split_ifs <;>
    simp [_aos_wifi_client_stopcurrentscan, emit, aos_resolve, set_out_err,
      set_scan_future, hs]
  | connected f =>
    cases hc : w.ctx.connect_future <;> cases hst : w.ctx.state <;>
    simp [dispatch, _aos_wifi_client_onconnected_handler, emit, aos_resolve, set_out_err,
      set_connect_future, set_state, notify, hc, hst]
  | disconnected f =>
    simp only [dispatch, _aos_wifi_client_ondisconnected_handler]
    cases hc : w.ctx.connect_future <;> cases hst : w.ctx.state <;> simp only [] <;>
    (try split_ifs) <;>
    simp [_aos_wifi_client_disconnect, emit, aos_resolve, set_out_err,
      set_connect_future, set_state, notify, hc]
  | scandone f =>
    simp only [dispatch, _aos_wifi_client_onscandone_handler]
    cases hs : w.ctx.scan_future <;> simp only [] <;> (try split_ifs) <;>
    simp [emit, aos_resolve, set_out_err, set_scan_future, set_in_results,
        set_out_results_count]

/-- No run of the worker writes the configuration. -/
theorem run_config (w : World) (evs : List (Driver × Event)) :
    (run w evs).ctx.config = w.ctx.config := by
  induction evs using List.reverseRecOn with
  | nil => rfl
  | append_singleton l p ih =>
    obtain ⟨d, e⟩ := p
    rw [run_snoc, dispatch_config, ih]

/-- C24: once `aos_wifi_client_init` has succeeded with the configuration `c1`, a later
call with any configuration `c2`, right away or after any handler runs, returns with
the task and its context as they are: the stored configuration (both ceilings and the
observer callback) is still `c1`. -/
theorem init_idempotent (env1 env2 : InitEnv) (c1 c2 : aos_wifi_client_config_t)
    (ctx0 : _aos_wifi_client_ctx_t) (heap : Fut → Args) (evs : List (Driver × Event))
    (h1 : aos_wifi_client_init env1 c1 none = some ctx0) :
    ctx0 = ctx_calloc c1 ∧
    aos_wifi_client_init env2 c2 (some ctx0) = some ctx0 ∧
    aos_wifi_client_init env2 c2
        (some (run { ctx := ctx0, heap := heap, trace := [] } evs).ctx) =
      some (run { ctx := ctx0, heap := heap, trace := [] } evs).ctx ∧
    (run { ctx := ctx0, heap := heap, trace := [] } evs).ctx.config = c1 := by
  have h0 : ctx0 = ctx_calloc c1 := by
    simp only [aos_wifi_client_init] at h1
    split_ifs at h1
    simpa using h1.symm
  refine ⟨h0, rfl, rfl, ?_⟩
  rw [run_config, h0]
  rfl

/-- The property C24 at the tests' configuration and a second configuration with both
ceilings 3 and another observer. -/
theorem init_idempotent_witness :
    ctx_calloc test_config = ctx_calloc test_config ∧
    aos_wifi_client_init init_env_ok other_config (some (ctx_calloc test_config)) =
      some (ctx_calloc test_config) ∧
    aos_wifi_client_init init_env_ok other_config
        (some (run { ctx := ctx_calloc test_config, heap := fun _ => test_args, trace := [] }
          [(driver_ok (fun _ => 0), .start 0)]).ctx) =
      some (run { ctx := ctx_calloc test_config, heap := fun _ => test_args, trace := [] }
        [(driver_ok (fun _ => 0), .start 0)]).ctx ∧
    (run { ctx := ctx_calloc test_config, heap := fun _ => test_args, trace := [] }
      [(driver_ok (fun _ => 0), .start 0)]).ctx.config = test_config :=
  init_idempotent init_env_ok init_env_ok test_config other_config
    (ctx_calloc test_config) (fun _ => test_args) [(driver_ok (fun _ => 0), .start 0)] rfl

/-- The stop, disconnect, scan and scan-done handlers leave both counters alone. -/
theorem counters_untouched (d : Driver) (e : Event) (w : World)
    (he : (∃ f, e = .stop f) ∨ (∃ f, e = .disconnect f) ∨ (∃ f, e = .scan f) ∨
      (∃ f, e = .scandone f)) :
    (dispatch d e w).ctx.connection_attempt = w.ctx.connection_attempt ∧
    (dispatch d e w).ctx.reconnection_attempt = w.ctx.reconnection_attempt := by
  rcases he with ⟨f, rfl⟩ | ⟨f, rfl⟩ | ⟨f, rfl⟩ | ⟨f, rfl⟩
  · cases hs : w.ctx.scan_future <;> cases hc : w.ctx.connect_future <;>
    simp [dispatch, _aos_wifi_client_onstop, _aos_wifi_client_stopcurrentscan,
      _aos_wifi_client_disconnect, emit, aos_resolve, set_out_err, set_connect_future,
      set_scan_future, hs, hc]
  · cases hc : w.ctx.connect_future <;>
    simp [dispatch, _aos_wifi_client_disconnect_handler,
      _aos_wifi_client_disconnect, emit, aos_resolve, set_out_err, set_connect_future,
      set_state, hc]
  · simp only [dispatch, _aos_wifi_client_scan_handler]
    cases hs : w.ctx.scan_future <;> split_ifs <;>
    simp [_aos_wifi_client_stopcurrentscan, emit, aos_resolve, set_out_err,
      set_scan_future, hs]
  · simp only [dispatch, _aos_wifi_client_onscandone_handler]
    cases hs : w.ctx.scan_future <;> simp only [] <;> (try split_ifs) <;>
    simp [emit, aos_resolve, set_out_err, set_scan_future, set_in_results,
        set_out_results_count]

/-- The connect handler leaves both counters alone unless its set-config call
succeeded, and then both are zero. -/
theorem counters_connect (d : Driver) (f : Fut) (w : World) :
    ((dispatch d (.connect f) w).ctx.connection_attempt = w.ctx.connection_attempt ∧
      (dispatch d (.connect f) w).ctx.reconnection_attempt = w.ctx.reconnection_attempt) ∨
    set_config_succeeded (appended w (dispatch d (.connect f) w)) := by
  simp only [dispatch, _aos_wifi_client_connect_handler, set_config_succeeded]
  cases hc : w.ctx.connect_future <;> split_ifs <;>
    simp_all [_aos_wifi_client_disconnect, emit, aos_resolve, set_out_err, set_state,
      set_connect_future, appended]

/-- The counters after on_connected. -/
theorem counters_connected (d : Driver) (f : Fut) (w : World) :
    (dispatch d (.connected f) w).ctx.connection_attempt = w.ctx.connection_attempt ∧
    (w.ctx.state = .DISCONNECTED →
      (dispatch d (.connected f) w).ctx.reconnection_attempt = w.ctx.reconnection_attempt) := by
  cases hc : w.ctx.connect_future <;> cases hst : w.ctx.state <;>
    simp [dispatch, _aos_wifi_client_onconnected_handler, emit, aos_resolve, set_out_err,
      set_connect_future, set_state, notify, hc, hst]

/-- The counters after on_disconnected: each is as before or incremented, and only
the one of the case at hand (connect pending or not) is incremented. -/
theorem counters_disconnected (d : Driver) (f : Fut) (w : World) :
    ((dispatch d (.disconnected f) w).ctx.connection_attempt = w.ctx.connection_attempt ∨
      (w.ctx.connect_future ≠ none ∧
        (dispatch d (.disconnected f) w).ctx.connection_attempt =
          incr w.ctx.connection_attempt)) ∧
    ((dispatch d (.disconnected f) w).ctx.reconnection_attempt = w.ctx.reconnection_attempt ∨
      (w.ctx.connect_future = none ∧
        (dispatch d (.disconnected f) w).ctx.reconnection_attempt =
          incr w.ctx.reconnection_attempt)) := by
  simp only [dispatch, _aos_wifi_client_ondisconnected_handler]
  cases hc : w.ctx.connect_future <;> cases hst : w.ctx.state <;> simp only [] <;>
    (try split_ifs) <;>
    simp_all [_aos_wifi_client_disconnect, emit, aos_resolve, set_out_err,
      set_connect_future, set_state, notify]

/-- C25 as stated fails: in the tests' world in phase Reconnecting, where
`reconnection_attempt = 1` and no connect is pending, an on_connected notification
(future 4) leaves `reconnection_attempt = 0`, and so does a connect request (future 4)
whose `esp_wifi_connect` call fails: it is resolved with `out_err = 1` and is not
installed as the pending connect.  Neither step is an accepted connect request. -/
theorem counter_reset_without_accepted_connect :
    test_reconnecting.ctx.reconnection_attempt = 1 ∧
    test_reconnecting.ctx.connect_future = none ∧
    (dispatch (driver_ok test_sta) (.connected 4) test_reconnecting).ctx.reconnection_attempt
      = 0 ∧
    (dispatch (driver_ok test_sta) (.connected 4) test_reconnecting).ctx.connect_future
      = none ∧
    (dispatch (driver_connect_fails test_sta) (.connect 4)
      test_reconnecting).ctx.reconnection_attempt = 0 ∧
    (dispatch (driver_connect_fails test_sta) (.connect 4)
      test_reconnecting).ctx.connect_future = none ∧
    resolutions 4 (appended test_reconnecting (dispatch (driver_connect_fails test_sta)
      (.connect 4) test_reconnecting)) = [1] := by
  decide

/-- C25 amended: if a handler step takes `connection_attempt` from non-zero to zero, the
step is a connect request whose set-config call succeeded, or an on_disconnected retry
of a pending connect on which the unsigned increment wraps to zero; if it takes
`reconnection_attempt` from non-zero to zero, the step is a connect request whose
set-config call succeeded, or an on_connected notification in a phase other than
Disconnected, or an on_disconnected retry with no connect pending on which the
unsigned increment wraps to zero.  The increment of a counter in the unsigned range
wraps to zero only at `UINT_MAX`. -/
theorem counter_reset_only (d : Driver) (e : Event) (w : World) :
    ((w.ctx.connection_attempt ≠ 0 ∧ (dispatch d e w).ctx.connection_attempt = 0) →
      ((∃ f, e = .connect f) ∧ set_config_succeeded (appended w (dispatch d e w))) ∨
      ((∃ f, e = .disconnected f) ∧ w.ctx.connect_future ≠ none ∧
        incr w.ctx.connection_attempt = 0)) ∧
    ((w.ctx.reconnection_attempt ≠ 0 ∧ (dispatch d e w).ctx.reconnection_attempt = 0) →
      ((∃ f, e = .connect f) ∧ set_config_succeeded (appended w (dispatch d e w))) ∨
      ((∃ f, e = .connected f) ∧ w.ctx.state ≠ .DISCONNECTED) ∨
      ((∃ f, e = .disconnected f) ∧ w.ctx.connect_future = none ∧
        incr w.ctx.reconnection_attempt = 0)) ∧
    (∀ c, c ≤ UINT_MAX → (incr c = 0 ↔ c = UINT_MAX)) := by
  refine ⟨?_, ?_, ?_⟩
  · rintro ⟨hne, hz⟩
    cases e with
    | start f =>
      have h := (onstart_config d f w).2.1
      simp only [dispatch] at hz
      rw [h] at hz
      exact absurd hz hne
    | stop f =>
      have h := (counters_untouched d (.stop f) w (Or.inl ⟨f, rfl⟩)).1
      rw [h] at hz
      exact absurd hz hne
    | disconnect f =>
      have h := (counters_untouched d (.disconnect f) w (Or.inr (Or.inl ⟨f, rfl⟩))).1
      rw [h] at hz
      exact absurd hz hne
    | scan f =>
      have h := (counters_untouched d (.scan f) w (Or.inr (Or.inr (Or.inl ⟨f, rfl⟩)))).1
      rw [h] at hz
      exact absurd hz hne
    | scandone f =>
      have h := (counters_untouched d (.scandone f) w (Or.inr (Or.inr (Or.inr ⟨f, rfl⟩)))).1
      rw [h] at hz
      exact absurd hz hne
    | connect f =>
      rcases counters_connect d f w with h | h
      · rw [h.1] at hz
        exact absurd hz hne
      · exact Or.inl ⟨⟨f, rfl⟩, h⟩
    | connected f =>
      have h := (counters_connected d f w).1
      rw [h] at hz
      exact absurd hz hne
    | disconnected f =>
      rcases (counters_disconnected d f w).1 with h | ⟨hc, h⟩
      · rw [h] at hz
        exact absurd hz hne
      · rw [h] at hz
        exact Or.inr ⟨⟨f, rfl⟩, hc, hz⟩
  · rintro ⟨hne, hz⟩
    cases e with
    | start f =>
      have h := (onstart_config d f w).2.2
      simp only [dispatch] at hz
      rw [h] at hz
      exact absurd hz hne
    | stop f =>
      have h := (counters_untouched d (.stop f) w (Or.inl ⟨f, rfl⟩)).2
      rw [h] at hz
      exact absurd hz hne
    | disconnect f =>
      have h := (counters_untouched d (.disconnect f) w (Or.inr (Or.inl ⟨f, rfl⟩))).2
      rw [h] at hz
      exact absurd hz hne
    | scan f =>
      have h := (counters_untouched d (.scan f) w (Or.inr (Or.inr (Or.inl ⟨f, rfl⟩)))).2
      rw [h] at hz
      exact absurd hz hne
    | scandone f =>
      have h := (counters_untouched d (.scandone f) w (Or.inr (Or.inr (Or.inr ⟨f, rfl⟩)))).2
      rw [h] at hz
      exact absurd hz hne
    | connect f =>
      rcases counters_connect d f w with h | h
      · rw [h.2] at hz
        exact absurd hz hne
      · exact Or.inl ⟨⟨f, rfl⟩, h⟩
    | connected f =>
      by_cases hst : w.ctx.state = .DISCONNECTED
      · have h := (counters_connected d f w).2 hst
        rw [h] at hz
        exact absurd hz hne
      · exact Or.inr (Or.inl ⟨⟨f, rfl⟩, hst⟩)
    | disconnected f =>
      rcases (counters_disconnected d f w).2 with h | ⟨hc, h⟩
      · rw [h] at hz
        exact absurd hz hne
      · rw [h] at hz
        exact Or.inr (Or.inr ⟨⟨f, rfl⟩, hc, hz⟩)
  · intro c hc
    simp only [incr, UINT_MAX] at hc ⊢
    omega

/-- The property C25 amended at the on_connected notification of the tests' world in
phase Reconnecting: the reset of `reconnection_attempt` from 1 to 0 is that of an
on_connected notification in a phase other than Disconnected. -/
theorem counter_reset_only_witness :
    ((∃ f, Event.connected 4 = .connect f) ∧ set_config_succeeded (appended test_reconnecting
        (dispatch (driver_ok test_sta) (.connected 4) test_reconnecting))) ∨
    ((∃ f, Event.connected 4 = .connected f) ∧ test_reconnecting.ctx.state ≠ .DISCONNECTED) ∨
    ((∃ f, Event.connected 4 = .disconnected f) ∧ test_reconnecting.ctx.connect_future = none ∧
      incr test_reconnecting.ctx.reconnection_attempt = 0) :=
  (counter_reset_only (driver_ok test_sta) (.connected 4) test_reconnecting).2.1
    ⟨by decide, by decide⟩

/-- C26: with no scan pending, on_scan_done makes one get-records call on the driver
(the drain) and resolves the event's own future; the context and the payloads are
unchanged, and there is no other resolution and no observer notification. -/
theorem onscandone_unsolicited (d : Driver) (future : Fut) (w : World)
    (hp : w.ctx.scan_future = none) :
    _aos_wifi_client_onscandone_handler d future w =
      { w with trace := w.trace ++
          [.call (.esp_wifi_scan_get_ap_records 0 (d.esp_wifi_scan_get_ap_records 0).1),
            .resolve future (w.heap future).out_err] } := by
  simp [_aos_wifi_client_onscandone_handler, hp, emit, aos_resolve]

/-- The property C26 in the started world of the tests. -/
theorem onscandone_unsolicited_witness :
    _aos_wifi_client_onscandone_handler (driver_ok (fun _ => 0)) 5 test_started =
      { test_started with trace := test_started.trace ++
          [.call (.esp_wifi_scan_get_ap_records 0 ESP_OK),
            .resolve 5 (test_started.heap 5).out_err] } :=
  onscandone_unsolicited (driver_ok (fun _ => 0)) 5 test_started (by decide)

/-- C27: in every state the worker reaches from the initial one, by any sequence of
handler runs under any driver answers, a pending connect future implies phase
Connecting; in phase Disconnected, Connected or Reconnecting no connect is pending. -/
theorem pending_connect_only_while_connecting (config : aos_wifi_client_config_t)
    (heap : Fut → Args) (evs : List (Driver × Event)) :
    ((run (boot config heap) evs).ctx.connect_future ≠ none →
      (run (boot config heap) evs).ctx.state = .CONNECTING) ∧
    ((run (boot config heap) evs).ctx.state = .DISCONNECTED ∨
      (run (boot config heap) evs).ctx.state = .CONNECTED ∨
      (run (boot config heap) evs).ctx.state = .RECONNECTING →
      (run (boot config heap) evs).ctx.connect_future = none) := by
  have h := run_pending_connect_phase config heap evs
  refine ⟨h, ?_⟩
  intro hs
  by_contra hc
  have := h hc
  rw [this] at hs
  simp at hs

/-- C29: in a phase other than Disconnected (Connected and Reconnecting among them)
with no connect pending and `reconnection_attempt` at most the ceiling, when the
reissued connect call fails on_disconnected has incremented the counter, disconnects
and leaves phase Disconnected; it notifies the observer of nothing. -/
theorem reconnect_reissue_failure (d : Driver) (future : Fut) (w : World)
    (hs : w.ctx.state = .CONNECTED ∨ w.ctx.state = .RECONNECTING)
    (hc : w.ctx.connect_future = none)
    (hle : w.ctx.reconnection_attempt ≤ w.ctx.config.reconnection_attempts)
    (hko : d.esp_wifi_connect ≠ ESP_OK) :
    _aos_wifi_client_ondisconnected_handler d future w =
      { ctx := { w.ctx with
          reconnection_attempt := incr w.ctx.reconnection_attempt
          state := .DISCONNECTED }
        heap := w.heap
        trace := w.trace ++ [.call (.esp_wifi_connect d.esp_wifi_connect),
          .call .esp_wifi_disconnect, .resolve future (w.heap future).out_err] } ∧
    (w.ctx.reconnection_attempt < UINT_MAX →
      incr w.ctx.reconnection_attempt = w.ctx.reconnection_attempt + 1) := by
  have h' : ¬ (w.ctx.config.reconnection_attempts < w.ctx.reconnection_attempt) := by omega
  refine ⟨?_, ?_⟩
  · rcases hs with hst | hst <;>
      simp [_aos_wifi_client_ondisconnected_handler, _aos_wifi_client_disconnect, emit,
        aos_resolve, set_state, hst, hc, h', hko]
  · intro h
    simp only [incr, UINT_MAX] at h ⊢
    omega

/-- The property C29 in the Connected world of the tests, the connect call failing. -/
theorem reconnect_reissue_failure_witness :
    _aos_wifi_client_ondisconnected_handler (driver_connect_fails (fun _ => 0)) 3
        test_connected =
      { ctx := { test_connected.ctx with
          reconnection_attempt := 1
          state := .DISCONNECTED }
        heap := test_connected.heap
        trace := test_connected.trace ++ [.call (.esp_wifi_connect 1),
          .call .esp_wifi_disconnect, .resolve 3 0] } :=
  (reconnect_reissue_failure (driver_connect_fails (fun _ => 0)) 3 test_connected
    (Or.inl (by decide)) (by decide) (by decide) (by decide)).1

/-- The start handler calls the observer on no path. -/
theorem notifications_start (d : Driver) (f : Fut) (w : World) :
    notifications (appended w (dispatch d (.start f) w)) = [] := by
  by_cases h0 : d.esp_netif_create_default_wifi_sta = none
  · simp [dispatch, _aos_wifi_client_onstart, h0, emit, aos_resolve, set_out_err, appended,
      notifications]
  by_cases h1 : d.esp_wifi_init = ESP_OK
  swap
  · simp [dispatch, _aos_wifi_client_onstart, h0, h1, emit, aos_resolve, set_out_err,
      appended, notifications]
  by_cases h2 : d.esp_wifi_set_mode = ESP_OK
  swap
  · simp [dispatch, _aos_wifi_client_onstart, h0, h1, h2, emit, aos_resolve, set_out_err,
      appended, notifications]
  by_cases h3 : d.esp_wifi_set_ps = ESP_OK
  swap
  · simp [dispatch, _aos_wifi_client_onstart, h0, h1, h2, h3, emit, aos_resolve,
      set_out_err, appended, notifications]
  by_cases h4 : d.esp_wifi_start = ESP_OK
  swap
  · simp [dispatch, _aos_wifi_client_onstart, h0, h1, h2, h3, h4, emit, aos_resolve,
      set_out_err, appended, notifications]
  by_cases h5 : d.register_ip.1 = ESP_OK
  swap
  · simp [dispatch, _aos_wifi_client_onstart, h0, h1, h2, h3, h4, h5, emit, aos_resolve,
      set_out_err, appended, notifications]
  by_cases h6 : d.register_wifi.1 = ESP_OK
  swap
  · simp [dispatch, _aos_wifi_client_onstart, h0, h1, h2, h3, h4, h5, h6, emit,
      aos_resolve, set_out_err, appended, notifications]
  simp [dispatch, _aos_wifi_client_onstart, h0, h1, h2, h3, h4, h5, h6, emit, aos_resolve,
    appended, notifications]

/-- The stop handler calls the observer on no path. -/
theorem notifications_stop (d : Driver) (f : Fut) (w : World) :
    notifications (appended w (dispatch d (.stop f) w)) = [] := by
  cases hs : w.ctx.scan_future <;> cases hc : w.ctx.connect_future <;>
    simp [dispatch, _aos_wifi_client_onstop, _aos_wifi_client_stopcurrentscan,
      _aos_wifi_client_disconnect, emit, aos_resolve, set_out_err, set_connect_future,
      set_scan_future, hs, hc, appended, notifications]

/-- The connect handler calls the observer on no path. -/
theorem notifications_connect (d : Driver) (f : Fut) (w : World) :
    notifications (appended w (dispatch d (.connect f) w)) = [] := by
  simp only [dispatch, _aos_wifi_client_connect_handler]
  cases hc : w.ctx.connect_future <;> split_ifs <;>
    simp_all [_aos_wifi_client_disconnect, emit, aos_resolve, set_out_err, set_state,
      set_connect_future, appended, notifications]

/-- The disconnect handler calls the observer on no path. -/
theorem notifications_disconnect (d : Driver) (f : Fut) (w : World) :
    notifications (appended w (dispatch d (.disconnect f) w)) = [] := by
  cases hc : w.ctx.connect_future <;>
    simp [dispatch, _aos_wifi_client_disconnect_handler, _aos_wifi_client_disconnect, emit,
      aos_resolve, set_out_err, set_connect_future, set_state, hc, appended, notifications]

/-- The scan handler calls the observer on no path. -/
theorem notifications_scan (d : Driver) (f : Fut) (w : World) :
    notifications (appended w (dispatch d (.scan f) w)) = [] := by
  simp only [dispatch, _aos_wifi_client_scan_handler]
  cases hs : w.ctx.scan_future <;> split_ifs <;>
    simp [_aos_wifi_client_stopcurrentscan, emit, aos_resolve, set_out_err,
      set_scan_future, hs, appended, notifications]

/-- The on_scan_done handler calls the observer on no path. -/
theorem notifications_scandone (d : Driver) (f : Fut) (w : World) :
    notifications (appended w (dispatch d (.scandone f) w)) = [] := by
  simp only [dispatch, _aos_wifi_client_onscandone_handler]
  cases hs : w.ctx.scan_future <;> simp only [] <;> (try split_ifs) <;>
    simp [emit, aos_resolve, set_out_err, set_scan_future, set_in_results,
      set_out_results_count, appended, notifications]

/-- The on_connected handler calls the observer once, with Reconnected, in phase
Reconnecting, and not at all in the other phases. -/
theorem notifications_connected (d : Driver) (f : Fut) (w : World) :
    notifications (appended w (dispatch d (.connected f) w)) =
      if w.ctx.state = .RECONNECTING then [.RECONNECTED] else [] := by
  cases hc : w.ctx.connect_future <;> cases hst : w.ctx.state <;>
    simp [dispatch, _aos_wifi_client_onconnected_handler, emit, aos_resolve, set_out_err,
      set_connect_future, set_state, notify, hc, hst, appended, notifications]

/-- The on_disconnected handler calls the observer only with no connect pending in a
phase other than Disconnected: once with Disconnected when the reconnection counter
is above the ceiling, once with Reconnecting when it is not and the reissued connect
call succeeds. -/
theorem notifications_disconnected (d : Driver) (f : Fut) (w : World) :
    notifications (appended w (dispatch d (.disconnected f) w)) =
      if w.ctx.state = .DISCONNECTED ∨ w.ctx.connect_future ≠ none then []
      else if w.ctx.reconnection_attempt > w.ctx.config.reconnection_attempts then
        [.DISCONNECTED]
      else if d.esp_wifi_connect ≠ ESP_OK then []
      else [.RECONNECTING] := by
  simp only [dispatch, _aos_wifi_client_ondisconnected_handler]
  cases hc : w.ctx.connect_future <;> cases hst : w.ctx.state <;> simp only [] <;>
    (try split_ifs) <;>
    simp_all [_aos_wifi_client_disconnect, emit, aos_resolve, set_out_err,
      set_connect_future, set_state, notify, appended, notifications]

/-- C28: the observer callback is invoked only by the handlers of driver notifications.
The start, stop, connect, disconnect, scan and on_scan_done handlers emit no observer
notification; on_disconnected with a pending connect emits none; a step that emits a
Disconnected notification is an on_disconnected step in a phase other than
Disconnected with no connect pending and `reconnection_attempt` above the ceiling;
and every handler step emits at most one notification. -/
theorem observer_only_from_notifications (d : Driver) (e : Event) (w : World) :
    (((∃ f, e = .start f) ∨ (∃ f, e = .stop f) ∨ (∃ f, e = .connect f) ∨
        (∃ f, e = .disconnect f) ∨ (∃ f, e = .scan f) ∨ (∃ f, e = .scandone f)) →
      notifications (appended w (dispatch d e w)) = []) ∧
    (((∃ f, e = .disconnected f) ∧ w.ctx.connect_future ≠ none) →
      notifications (appended w (dispatch d e w)) = []) ∧
    (aos_wifi_client_event_t.DISCONNECTED ∈ notifications (appended w (dispatch d e w)) →
      (∃ f, e = .disconnected f) ∧ w.ctx.state ≠ .DISCONNECTED ∧
        w.ctx.connect_future = none ∧
        w.ctx.reconnection_attempt > w.ctx.config.reconnection_attempts) ∧
    (notifications (appended w (dispatch d e w))).length ≤ 1 := by
  cases e with
  | start f => simp [notifications_start]
  | stop f => simp [notifications_stop]
  | connect f => simp [notifications_connect]
  | disconnect f => simp [notifications_disconnect]
  | scan f => simp [notifications_scan]
  | scandone f => simp [notifications_scandone]
  | connected f =>
    rw [notifications_connected]
    refine ⟨by simp, by simp, ?_, ?_⟩
    · split_ifs <;> simp
    · split_ifs <;> simp
  | disconnected f =>
    rw [notifications_disconnected]
    refine ⟨by simp, ?_, ?_, ?_⟩
    · rintro ⟨_, hc⟩
      simp [hc]
    · intro h
      by_cases hst : w.ctx.state = .DISCONNECTED
      · simp [hst] at h
      by_cases hc : w.ctx.connect_future = none
      swap
      · simp [hc] at h
      by_cases hgt : w.ctx.reconnection_attempt > w.ctx.config.reconnection_attempts
      · exact ⟨⟨f, rfl⟩, hst, hc, hgt⟩
      · by_cases hok : d.esp_wifi_connect = ESP_OK <;> simp [hst, hc, hgt, hok] at h
    · split_ifs <;> simp

/-- The property C28 at the notification that gives the reconnection up: the step that
emits Disconnected is an on_disconnected step in phase Reconnecting with no connect
pending and the counter (1) above the ceiling (0). -/
theorem observer_only_from_notifications_witness :
    (∃ f, Event.disconnected 4 = .disconnected f) ∧
    test_reconnect_exhausted.ctx.state ≠ .DISCONNECTED ∧
    test_reconnect_exhausted.ctx.connect_future = none ∧
    test_reconnect_exhausted.ctx.reconnection_attempt >
      test_reconnect_exhausted.ctx.config.reconnection_attempts :=
  (observer_only_from_notifications (driver_ok test_sta) (.disconnected 4)
    test_reconnect_exhausted).2.2.1 (by decide)

/-- A step of on_disconnected under a ceiling of `UINT_MAX`, connect pending: the
counter, an unsigned value, is never above the ceiling, so the handler retries. -/
theorem ondisconnected_retry_uint_max (d : Driver) (g : Fut) (w : World)
    (hs : w.ctx.state ≠ .DISCONNECTED) (hc : w.ctx.connect_future ≠ none)
    (hN : w.ctx.config.connection_attempts = UINT_MAX)
    (hr : w.ctx.connection_attempt ≤ UINT_MAX)
    (hok : d.esp_wifi_connect = ESP_OK) :
    dispatch d (.disconnected g) w =
      { ctx := { w.ctx with connection_attempt := (w.ctx.connection_attempt + 1) % 2 ^ 32 }
        heap := w.heap
        trace := w.trace ++ [.call (.esp_wifi_connect ESP_OK),
          .resolve g (w.heap g).out_err] } := by
  have h := ondisconnected_retry d g w hs hc (by rw [hN]; exact hr) hok
  rw [h]
  rfl

/-- C30: with both ceilings `UINT_MAX` and the counters in the range of an
`unsigned int`, every on_disconnected step in a phase other than Disconnected takes
the retry branch, whatever the counters are: it makes one `esp_wifi_connect` call and
sets the counter of the case at hand to `(counter + 1) mod 2^32`.  So a pending connect
request `cf` that meets only disconnected notifications whose reissued connect calls
succeed, however many, is still pending and unresolved after them, the counter being
`(counter + k) mod 2^32` after `k` notifications and `k` connect calls reissued. -/
theorem ceiling_uint_max_never_gives_up (w : World) (cf : Fut)
    (evs : List (Driver × Event))
    (hs : w.ctx.state ≠ .DISCONNECTED)
    (hN1 : w.ctx.config.connection_attempts = UINT_MAX)
    (hN2 : w.ctx.config.reconnection_attempts = UINT_MAX)
    (hr1 : w.ctx.connection_attempt ≤ UINT_MAX)
    (hr2 : w.ctx.reconnection_attempt ≤ UINT_MAX) :
    (∀ d g, connect_calls (appended w (dispatch d (.disconnected g) w)) = 1 ∧
      (w.ctx.connect_future ≠ none →
        (dispatch d (.disconnected g) w).ctx.connection_attempt =
          (w.ctx.connection_attempt + 1) % 2 ^ 32) ∧
      (w.ctx.connect_future = none →
        (dispatch d (.disconnected g) w).ctx.reconnection_attempt =
          (w.ctx.reconnection_attempt + 1) % 2 ^ 32)) ∧
    (w.ctx.connect_future = some cf →
      (∀ p ∈ evs, p.1.esp_wifi_connect = ESP_OK ∧ ∃ g, p.2 = .disconnected g ∧ g ≠ cf) →
      (run w evs).ctx =
        { w.ctx with connection_attempt := (w.ctx.connection_attempt + evs.length) % 2 ^ 32 } ∧
      (run w evs).trace = w.trace ++ appended w (run w evs) ∧
      connect_calls (appended w (run w evs)) = evs.length ∧
      resolutions cf (appended w (run w evs)) = [] ∧
      pending (run w evs) cf) := by
  have h1 : ¬ (w.ctx.config.connection_attempts < w.ctx.connection_attempt) := by omega
  have h2 : ¬ (w.ctx.config.reconnection_attempts < w.ctx.reconnection_attempt) := by omega
  refine ⟨?_, ?_⟩
  · intro d g
    simp only [dispatch, _aos_wifi_client_ondisconnected_handler]
    cases hc : w.ctx.connect_future <;> cases hst : w.ctx.state <;>
      first
      | exact absurd hst hs
      | (by_cases hok : d.esp_wifi_connect = ESP_OK <;>
          simp [_aos_wifi_client_disconnect, emit, aos_resolve, set_out_err,
            set_connect_future, set_state, notify, appended, connect_calls,
            is_connect_call, incr, hc, h1, h2, hok])
  · intro hc hev
    induction evs using List.reverseRecOn with
    | nil =>
      have hlt : w.ctx.connection_attempt < 2 ^ 32 := by
        simp only [UINT_MAX] at hr1
        omega
      refine ⟨?_, by simp [run, appended], by simp [run, appended, connect_calls],
        by simp [run, appended, resolutions], by simp [run, pending, hc]⟩
      simp only [run, List.length_nil, Nat.add_zero]
      rw [Nat.mod_eq_of_lt hlt]
    | append_singleton l p ih =>
      obtain ⟨d, e⟩ := p
      obtain ⟨i1, i2, i3, i4, _⟩ := ih (fun p hp => hev p (List.mem_append_left _ hp))
      obtain ⟨hok, g, hg, hgc⟩ :=
        hev (d, e) (List.mem_append_right _ (List.mem_singleton_self _))
      simp only at hok hg
      subst hg
      have hlt : (w.ctx.connection_attempt + l.length) % 2 ^ 32 ≤ UINT_MAX := by
        simp only [UINT_MAX]
        omega
      have hstep := ondisconnected_retry_uint_max d g (run w l) (by rw [i1]; exact hs)
        (by rw [i1]; simp [hc]) (by rw [i1]; exact hN1) (by rw [i1]; exact hlt) hok
      generalize appended w (run w l) = A at i2 i3 i4
      rw [run_snoc, hstep]
      refine ⟨?_, ?_, ?_, ?_, ?_⟩
      · simp [i1]
        omega
      · simp [appended, i2]
      · simp [appended, i2, connect_calls, is_connect_call] at i3 ⊢
        exact i3
      · simp [appended, i2, resolutions_append, resolutions, hgc, i4]
      · simp [pending, i1, hc]

/-- The property C30 in the tests' world with the connect request 1 pending (both
ceilings `UINT32_MAX`): after three disconnected notifications whose reissued connect
calls succeed the counter is 3, three connect calls were reissued, and the request
is pending and unresolved. -/
theorem ceiling_uint_max_never_gives_up_witness :
    (run test_connecting [(driver_ok (fun _ => 0), .disconnected 2),
      (driver_ok (fun _ => 0), .disconnected 3),
      (driver_ok (fun _ => 0), .disconnected 4)]).ctx =
      { test_connecting.ctx with connection_attempt := (0 + 3) % 2 ^ 32 } ∧
    (run test_connecting [(driver_ok (fun _ => 0), .disconnected 2),
      (driver_ok (fun _ => 0), .disconnected 3),
      (driver_ok (fun _ => 0), .disconnected 4)]).trace =
      test_connecting.trace ++ appended test_connecting
        (run test_connecting [(driver_ok (fun _ => 0), .disconnected 2),
          (driver_ok (fun _ => 0), .disconnected 3),
          (driver_ok (fun _ => 0), .disconnected 4)]) ∧
    connect_calls (appended test_connecting
      (run test_connecting [(driver_ok (fun _ => 0), .disconnected 2),
        (driver_ok (fun _ => 0), .disconnected 3),
        (driver_ok (fun _ => 0), .disconnected 4)])) = 3 ∧
    resolutions 1 (appended test_connecting
      (run test_connecting [(driver_ok (fun _ => 0), .disconnected 2),
        (driver_ok (fun _ => 0), .disconnected 3),
        (driver_ok (fun _ => 0), .disconnected 4)])) = [] ∧
    pending (run test_connecting [(driver_ok (fun _ => 0), .disconnected 2),
      (driver_ok (fun _ => 0), .disconnected 3),
      (driver_ok (fun _ => 0), .disconnected 4)]) 1 :=
  (ceiling_uint_max_never_gives_up test_connecting 1
    [(driver_ok (fun _ => 0), .disconnected 2), (driver_ok (fun _ => 0), .disconnected 3),
      (driver_ok (fun _ => 0), .disconnected 4)]
    (by decide) (by decide) (by decide) (by decide) (by decide)).2 (by decide)
    (by
      intro p hp
      simp only [List.mem_cons, List.mem_singleton, List.not_mem_nil, or_false] at hp
      rcases hp with rfl | rfl | rfl
      · exact ⟨rfl, 2, rfl, by decide⟩
      · exact ⟨rfl, 3, rfl, by decide⟩
      · exact ⟨rfl, 4, rfl, by decide⟩)

/-! ## The copy of the credentials into the driver configuration -/

/-- The C `strcpy` stores the terminating NUL `strlen s` bytes after the start of the
destination, whatever was there. -/
theorem strcpy_nul (m : Nat → Nat) (off : Nat) (s : List Nat) :
    strcpy m off s (off + strlen s) = 0 := by
  simp [strcpy, poke, strlen, List.getD_eq_getElem?_getD]

/-- C31 on the code: a connect request whose ssid has exactly `SSID_SIZE` bytes and
whose password has exactly `PASSWORD_SIZE` bytes passes the handler's length
validation (the handler goes on to the get-config call instead of rejecting), while
`strlen + 1` exceeds the width of either field: the `strcpy` of the ssid stores its
NUL at offset `SSID_SIZE`, the first byte after the ssid field, and the `strcpy` of
the password stores its NUL at offset `SSID_SIZE + PASSWORD_SIZE`, the first byte
after the password field, whatever the memory held there. -/
theorem connect_copy_past_field (d : Driver) (future : Fut) (w : World)
    (hs : strlen (w.heap future).in_ssid = SSID_SIZE)
    (hp : strlen (w.heap future).in_password = PASSWORD_SIZE) :
    (appended w (_aos_wifi_client_connect_handler d future w)).head? =
      some (.call (.esp_wifi_get_config d.esp_wifi_get_config.1)) ∧
    ¬ (strlen (w.heap future).in_ssid + 1 ≤ SSID_SIZE) ∧
    ¬ (strlen (w.heap future).in_password + 1 ≤ PASSWORD_SIZE) ∧
    (∀ m, strcpy m 0 (w.heap future).in_ssid SSID_SIZE = 0) ∧
    (∀ m, strcpy m SSID_SIZE (w.heap future).in_password (SSID_SIZE + PASSWORD_SIZE) = 0) := by
  refine ⟨?_, by omega, by omega, ?_, ?_⟩
  · have hv : ¬ (strlen (w.heap future).in_ssid > SSID_SIZE ∨
        strlen (w.heap future).in_password > PASSWORD_SIZE) := by
      rw [hs, hp]
      simp
    simp only [_aos_wifi_client_connect_handler, if_neg hv]
    cases hc : w.ctx.connect_future <;> split_ifs <;>
      simp [_aos_wifi_client_disconnect, emit, aos_resolve, set_out_err, set_state,
        set_connect_future, appended, hc]
  · intro m
    have h := strcpy_nul m 0 (w.heap future).in_ssid
    rw [hs, Nat.zero_add] at h
    exact h
  · intro m
    have h := strcpy_nul m SSID_SIZE (w.heap future).in_password
    rw [hp] at h
    exact h

/-- The property on the code at an ssid of 32 bytes and a password of 64 bytes, in the
started world of the tests: the request is not rejected, and a memory holding 1
everywhere holds 0 at offsets 32 and 96 after the two copies. -/
theorem connect_copy_past_field_witness :
    (appended test_full_width (_aos_wifi_client_connect_handler (driver_ok (fun _ => 0)) 1
        test_full_width)).head? = some (.call (.esp_wifi_get_config ESP_OK)) ∧
    ¬ (strlen (test_full_width.heap 1).in_ssid + 1 ≤ SSID_SIZE) ∧
    ¬ (strlen (test_full_width.heap 1).in_password + 1 ≤ PASSWORD_SIZE) ∧
    strcpy (fun _ => 1) 0 (test_full_width.heap 1).in_ssid SSID_SIZE = 0 ∧
    strcpy (fun _ => 1) SSID_SIZE (test_full_width.heap 1).in_password
      (SSID_SIZE + PASSWORD_SIZE) = 0 :=
  have h := connect_copy_past_field (driver_ok (fun _ => 0)) 1 test_full_width
    (by decide) (by decide)
  ⟨h.1, h.2.1, h.2.2.1, h.2.2.2.1 (fun _ => 1), h.2.2.2.2 (fun _ => 1)⟩

end AosWifiClient
